import Mathlib

/-!
# Socket-diagnostics dispatch core (`net/core/sock_diag.c`)

A shallow embedding of the handler registry, the compatibility slot, the command
dispatcher, the receive pipeline, the destroy gate, the memory-accounting encoder and
the socket-cookie generator, followed by theorems about them.

Conventions of the embedding:

* pointers are natural numbers naming an object; a pointer-valued cell that may be
  `NULL` is an `Option Nat`;
* `sock_diag_handlers[AF_MAX]` is a list of cells, `inet_rcv_compat` one cell;
* every access the code makes to a shared cell, every mutex operation and every call
  that leaves this file (`request_module`, a handler operation, the compat function)
  is appended to a trace, in program order;
* 64-bit and 32-bit machine integers are naturals reduced with `% 2 ^ 64`, `% 2 ^ 32`;
* the `while (1)` loop of `sock_gen_cookie` is run with an explicit iteration budget.
-/

namespace SockDiag

/-! ## Constants taken from headers outside this file -/

/-- Constants that `sock_diag.c` uses but that are declared in kernel headers
(`linux/socket.h`, `linux/inet_diag.h`, `linux/sock_diag.h`, `linux/capability.h`,
`linux/rtnetlink.h`, the errno headers); `RTA_LENGTH` and `RTA_SPACE` are the macros
giving the length field and the room taken by an attribute with a payload of the given
number of bytes. They are parameters of the embedding: every function below takes them as `K`. -/
structure Consts where
  AF_MAX : Nat
  AF_INET : Nat
  PF_NETLINK : Nat
  NETLINK_SOCK_DIAG : Nat
  INET_DIAG_NOCOOKIE : Nat
  TCPDIAG_GETSOCK : Nat
  DCCPDIAG_GETSOCK : Nat
  SOCK_DIAG_BY_FAMILY : Nat
  SOCK_DESTROY_BACKPORT : Nat
  sizeof_sock_diag_req : Nat
  EPERM : Int
  ENOENT : Int
  EBUSY : Int
  EINVAL : Int
  EMSGSIZE : Int
  EOPNOTSUPP : Int
  ESTALE : Int
  CAP_NET_ADMIN : Nat
  SK_MEMINFO_RMEM_ALLOC : Nat
  SK_MEMINFO_RCVBUF : Nat
  SK_MEMINFO_WMEM_ALLOC : Nat
  SK_MEMINFO_SNDBUF : Nat
  SK_MEMINFO_FWD_ALLOC : Nat
  SK_MEMINFO_WMEM_QUEUED : Nat
  SK_MEMINFO_OPTMEM : Nat
  SK_MEMINFO_VARS : Nat
  RTA_LENGTH : Nat → Nat
  RTA_SPACE : Nat → Nat

/-- The values these constants have in a Linux 3.4 tree for ARM; used for concrete
evaluation only. -/
def linux34 : Consts where
  AF_MAX := 40
  AF_INET := 2
  PF_NETLINK := 16
  NETLINK_SOCK_DIAG := 4
  INET_DIAG_NOCOOKIE := 0xFFFFFFFF
  TCPDIAG_GETSOCK := 18
  DCCPDIAG_GETSOCK := 19
  SOCK_DIAG_BY_FAMILY := 20
  SOCK_DESTROY_BACKPORT := 21
  sizeof_sock_diag_req := 2
  EPERM := 1
  ENOENT := 2
  EBUSY := 16
  EINVAL := 22
  EMSGSIZE := 90
  EOPNOTSUPP := 95
  ESTALE := 116
  CAP_NET_ADMIN := 12
  SK_MEMINFO_RMEM_ALLOC := 0
  SK_MEMINFO_RCVBUF := 1
  SK_MEMINFO_WMEM_ALLOC := 2
  SK_MEMINFO_SNDBUF := 3
  SK_MEMINFO_FWD_ALLOC := 4
  SK_MEMINFO_WMEM_QUEUED := 5
  SK_MEMINFO_OPTMEM := 6
  SK_MEMINFO_VARS := 7
  RTA_LENGTH := fun len => 4 + len
  RTA_SPACE := fun len => (4 + len + 3) / 4 * 4

/-! ## Registry state, requests and the trace -/

/-- The part of a netlink message the dispatcher looks at: `nlh->nlmsg_type`, the
payload length `nlmsg_len(nlh)`, and the first payload byte seen through
`struct sock_diag_req`, `req->sdiag_family`. -/
structure nlmsghdr where
  nlmsg_type : Nat
  payload_len : Nat
  sdiag_family : Nat
deriving DecidableEq, Repr

/-- The two mutexes of the file. -/
inductive Mutex where
  | sock_diag_table_mutex
  | sock_diag_mutex
deriving DecidableEq, Repr

/-- What the executing thread does that is visible outside its local variables. -/
inductive Event where
  | mutex_lock (m : Mutex)
  | mutex_unlock (m : Mutex)
  | load_handler (i : Nat)
  | store_handler (i : Nat)
  | load_compat
  | store_compat
  | request_module (pf proto type : Nat)
  | dump (hndl : Nat) (nlh : nlmsghdr)
  | destroy (hndl : Nat) (nlh : nlmsghdr)
  | compat (fn : Nat) (nlh : nlmsghdr)
  | capable (cap : Nat)
  | diag_destroy (sk : Nat) (err : Int)
deriving DecidableEq, Repr

/-- Is the event a call of a handler operation (`dump`, `destroy`) or of the compat
function? -/
def Event.isHandlerCall : Event → Bool
  | .dump _ _ => true
  | .destroy _ _ => true
  | .compat _ _ => true
  | _ => false

/-- The two file-scope variables guarded by `sock_diag_table_mutex`. -/
structure Registry where
  sock_diag_handlers : List (Option Nat)
  inet_rcv_compat : Option Nat
deriving DecidableEq, Repr

/-- Registry plus the trace of the executing thread. -/
structure State where
  reg : Registry
  trace : List Event
deriving DecidableEq, Repr

/-- The object behind a `struct sock_diag_handler *`: its family tag, its `dump`
operation and its optional `destroy` operation; an operation is represented by the
`int` it returns for a request. -/
structure sock_diag_handler where
  family : Nat
  dump : nlmsghdr → Int
  destroy : Option (nlmsghdr → Int)

/-- Everything outside this file that the code reaches through a pointer or a call:
the handler object a handler pointer names, the function a compat pointer names,
what a `request_module` call (run by another task, which may register handlers) does
to the registry, the answer of `capable(cap)` for the calling task, and the optional
operation `sk->sk_prot->diag_destroy` of a socket (represented by the `int` it returns
for a socket and an error code). -/
structure Env where
  handler : Nat → sock_diag_handler
  compat : Nat → nlmsghdr → Int
  request_module : Nat → Nat → Nat → Registry → Registry
  capable : Nat → Bool
  diag_destroy : Nat → Option (Nat → Int → Int)

/-- The fatal outcome of `BUG_ON`. -/
inductive Fatal where
  | BUG
deriving DecidableEq, Repr

/-- Append one event to the trace. -/
def State.emit (s : State) (e : Event) : State :=
  { s with trace := s.trace ++ [e] }

/-- The occupant of slot `i` of a handler table. -/
def slot (tbl : List (Option Nat)) (i : Nat) : Option Nat :=
  tbl.getD i none

/-- Model of `mutex_lock(m)`. -/
def mutex_lock (m : Mutex) (s : State) : State :=
  s.emit (.mutex_lock m)

/-- Model of `mutex_unlock(m)`. -/
def mutex_unlock (m : Mutex) (s : State) : State :=
  s.emit (.mutex_unlock m)

/-- Read of `sock_diag_handlers[i]`. -/
def load_handler (i : Nat) (s : State) : Option Nat × State :=
  (slot s.reg.sock_diag_handlers i, s.emit (.load_handler i))

/-- Write `sock_diag_handlers[i] = v`. -/
def store_handler (i : Nat) (v : Option Nat) (s : State) : State :=
  { reg := { s.reg with sock_diag_handlers := s.reg.sock_diag_handlers.set i v },
    trace := s.trace ++ [.store_handler i] }

/-- Read of `inet_rcv_compat`. -/
def load_compat (s : State) : Option Nat × State :=
  (s.reg.inet_rcv_compat, s.emit .load_compat)

/-- Write `inet_rcv_compat = v`. -/
def store_compat (v : Option Nat) (s : State) : State :=
  { reg := { s.reg with inet_rcv_compat := v },
    trace := s.trace ++ [.store_compat] }

/-- Model of `request_module("net-pf-%d-proto-%d-type-%d", pf, proto, type)`: the
call is recorded and the registry becomes whatever the environment makes of it. -/
def request_module (E : Env) (pf proto type : Nat) (s : State) : State :=
  { reg := E.request_module pf proto type s.reg,
    trace := s.trace ++ [.request_module pf proto type] }

/-! ## Compatibility slot -/

/-- Model of `sock_diag_register_inet_compat(fn)`. -/
def sock_diag_register_inet_compat (fn : Nat) (s : State) : State :=
  let s1 := mutex_lock .sock_diag_table_mutex s
  let s2 := store_compat (some fn) s1
  mutex_unlock .sock_diag_table_mutex s2

/-- Model of `sock_diag_unregister_inet_compat(fn)`; `fn` is not used. -/
def sock_diag_unregister_inet_compat (_fn : Nat) (s : State) : State :=
  let s1 := mutex_lock .sock_diag_table_mutex s
  let s2 := store_compat none s1
  mutex_unlock .sock_diag_table_mutex s2

/-! ## Handler registry -/

/-- Model of `sock_diag_register(hndl)`: returns the `int` result and the new state. -/
def sock_diag_register (K : Consts) (E : Env) (hndl : Nat) (s : State) : Int × State :=
  if (E.handler hndl).family ≥ K.AF_MAX then
    (-K.EINVAL, s)
  else
    let s1 := mutex_lock .sock_diag_table_mutex s
    let (cur, s2) := load_handler (E.handler hndl).family s1
    let (err, s3) :=
      if cur.isSome then ((-K.EBUSY : Int), s2)
      else ((0 : Int), store_handler (E.handler hndl).family (some hndl) s2)
    (err, mutex_unlock .sock_diag_table_mutex s3)

/-- Model of `sock_diag_unregister(hnld)`: a `void` function, so a normal return
carries only the new state; `BUG_ON` ends the run with `Fatal.BUG`. -/
def sock_diag_unregister (K : Consts) (E : Env) (hnld : Nat) (s : State) :
    Except Fatal State :=
  let family := (E.handler hnld).family
  if family ≥ K.AF_MAX then
    .ok s
  else
    let s1 := mutex_lock .sock_diag_table_mutex s
    let (cur, s2) := load_handler family s1
    if cur ≠ some hnld then
      .error .BUG
    else
      let s3 := store_handler family none s2
      .ok (mutex_unlock .sock_diag_table_mutex s3)

/-! ## Command dispatcher -/

/-- Model of `sock_diag_lock_handler(family)`: returns the occupant read under the
lock; the table mutex is held on return. -/
def sock_diag_lock_handler (K : Consts) (E : Env) (family : Nat) (s : State) :
    Option Nat × State :=
  let (cur, s1) := load_handler family s
  let s2 :=
    if cur = none then request_module E K.PF_NETLINK K.NETLINK_SOCK_DIAG family s1
    else s1
  let s3 := mutex_lock .sock_diag_table_mutex s2
  load_handler family s3

/-- The registry as `sock_diag_lock_handler(family)` finds it once it holds the lock:
the one it started from if slot `family` was occupied, otherwise the one left by the
`request_module` attempt. -/
def resolved (K : Consts) (E : Env) (family : Nat) (r : Registry) : Registry :=
  if slot r.sock_diag_handlers family = none then
    E.request_module K.PF_NETLINK K.NETLINK_SOCK_DIAG family r
  else r

/-- The events `sock_diag_lock_handler(family)` appends to the trace. -/
def lock_handler_events (K : Consts) (family : Nat) (r : Registry) : List Event :=
  [Event.load_handler family] ++
    (if slot r.sock_diag_handlers family = none then
      [Event.request_module K.PF_NETLINK K.NETLINK_SOCK_DIAG family]
    else []) ++
    [Event.mutex_lock .sock_diag_table_mutex, Event.load_handler family]

/-- Model of `sock_diag_unlock_handler(h)`. -/
def sock_diag_unlock_handler (_h : Option Nat) (s : State) : State :=
  mutex_unlock .sock_diag_table_mutex s

/-- Model of `__sock_diag_cmd(skb, nlh)`. -/
def __sock_diag_cmd (K : Consts) (E : Env) (nlh : nlmsghdr) (s : State) : Int × State :=
  if nlh.payload_len < K.sizeof_sock_diag_req then
    (-K.EINVAL, s)
  else if nlh.sdiag_family ≥ K.AF_MAX then
    (-K.EINVAL, s)
  else
    let (hndl, s1) := sock_diag_lock_handler K E nlh.sdiag_family s
    let (err, s2) :=
      match hndl with
      | none => (-K.ENOENT, s1)
      | some h =>
        if nlh.nlmsg_type = K.SOCK_DIAG_BY_FAMILY then
          ((E.handler h).dump nlh, s1.emit (.dump h nlh))
        else if nlh.nlmsg_type = K.SOCK_DESTROY_BACKPORT then
          match (E.handler h).destroy with
          | some destroy => (destroy nlh, s1.emit (.destroy h nlh))
          | none => (-K.EOPNOTSUPP, s1)
        else
          (-K.EOPNOTSUPP, s1)
    (err, sock_diag_unlock_handler hndl s2)

/-- Model of `sock_diag_rcv_msg(skb, nlh)`. -/
def sock_diag_rcv_msg (K : Consts) (E : Env) (nlh : nlmsghdr) (s : State) : Int × State :=
  if nlh.nlmsg_type = K.TCPDIAG_GETSOCK ∨ nlh.nlmsg_type = K.DCCPDIAG_GETSOCK then
    let (c0, s1) := load_compat s
    let s2 :=
      if c0 = none then request_module E K.PF_NETLINK K.NETLINK_SOCK_DIAG K.AF_INET s1
      else s1
    let s3 := mutex_lock .sock_diag_table_mutex s2
    let (c1, s4) := load_compat s3
    let (ret, s5) :=
      match c1 with
      | some fn => (E.compat fn nlh, s4.emit (.compat fn nlh))
      | none => (-K.EOPNOTSUPP, s4)
    (ret, mutex_unlock .sock_diag_table_mutex s5)
  else if nlh.nlmsg_type = K.SOCK_DIAG_BY_FAMILY ∨
      nlh.nlmsg_type = K.SOCK_DESTROY_BACKPORT then
    __sock_diag_cmd K E nlh s
  else
    (-K.EINVAL, s)

/-! ## Receive pipeline -/

/-- Modelled from the spec: `netlink_rcv_skb` belongs to the netlink transport
(`net/netlink/af_netlink.c`), which is not part of this file. The buffer is the list of
messages the transport hands over; the callback is run on each of them, in order, and
each result goes back to the transport. -/
def netlink_rcv_skb (cb : nlmsghdr → State → Int × State) :
    List nlmsghdr → State → List Int × State
  | [], s => ([], s)
  | nlh :: rest, s =>
    let (ret, s1) := cb nlh s
    let (rets, s2) := netlink_rcv_skb cb rest s1
    (ret :: rets, s2)

/-- Model of `sock_diag_rcv(skb)`: a `void` function; the results handed to the
transport are returned next to the new state. -/
def sock_diag_rcv (K : Consts) (E : Env) (skb : List nlmsghdr) (s : State) :
    List Int × State :=
  let s1 := mutex_lock .sock_diag_mutex s
  let (rets, s2) := netlink_rcv_skb (sock_diag_rcv_msg K E) skb s1
  (rets, mutex_unlock .sock_diag_mutex s2)

/-! ## Destroy gate -/

/-- Model of `sock_diag_destroy(sk, err)`. -/
def sock_diag_destroy (K : Consts) (E : Env) (sk : Nat) (err : Int) (s : State) :
    Int × State :=
  let s1 := s.emit (.capable K.CAP_NET_ADMIN)
  if ¬ E.capable K.CAP_NET_ADMIN then
    (-K.EPERM, s1)
  else
    match E.diag_destroy sk with
    | none => (-K.EOPNOTSUPP, s1)
    | some diag_destroy => (diag_destroy sk err, s1.emit (.diag_destroy sk err))

/-! ## Memory-accounting attribute -/

/-- The values `sock_diag_put_meminfo` reads from a socket, as C `int`s: what the
helpers `sk_rmem_alloc_get(sk)` and `sk_wmem_alloc_get(sk)` of `net/sock.h` return, the
fields `sk_rcvbuf`, `sk_sndbuf`, `sk_forward_alloc`, `sk_wmem_queued`, and
`atomic_read(&sk->sk_omem_alloc)`. -/
structure sock_mem where
  sk_rmem_alloc_get : Int
  sk_rcvbuf : Int
  sk_wmem_alloc_get : Int
  sk_sndbuf : Int
  sk_forward_alloc : Int
  sk_wmem_queued : Int
  sk_omem_alloc : Int
deriving DecidableEq, Repr

/-- A routing attribute in a buffer: type, length field, and payload as 32-bit words. -/
structure rtattr where
  rta_type : Nat
  rta_len : Nat
  data : List Nat
deriving DecidableEq, Repr

/-- The part of a `struct sk_buff` the encoder deals with: the attributes put so far,
the bytes of tailroom left, and what the not yet written words of the tail hold. -/
structure sk_buff where
  attrs : List rtattr
  tailroom : Nat
  uninit : Nat → Nat

/-- Conversion of a C `int` to `__u32`. -/
def to_u32 (x : Int) : Nat :=
  (x % 2 ^ 32).toNat

/-- Modelled from the spec: the macro `__RTA_PUT(skb, attrtype, attrlen)` of
`linux/rtnetlink.h` is not part of this file. It fails (the `goto rtattr_failure`,
`none` here) when the destination cannot accommodate the attribute; otherwise it
reserves the attribute at the tail of the buffer and yields it, payload not yet written,
together with the buffer whose tailroom has shrunk. -/
def __RTA_PUT (K : Consts) (skb : sk_buff) (attrtype attrlen : Nat) :
    Option (rtattr × sk_buff) :=
  if skb.tailroom < K.RTA_SPACE attrlen then
    none
  else
    some ({ rta_type := attrtype
            rta_len := K.RTA_LENGTH attrlen
            data := (List.range (attrlen / 4)).map skb.uninit },
          { skb with tailroom := skb.tailroom - K.RTA_SPACE attrlen })

/-- Model of `sock_diag_put_meminfo(sk, skb, attrtype)`. The stores `mem[i] = v` go to
the payload of the reserved attribute; the buffer returned holds that attribute after
the ones it held before. -/
def sock_diag_put_meminfo (K : Consts) (sk : sock_mem) (skb : sk_buff) (attrtype : Nat) :
    Int × sk_buff :=
  match __RTA_PUT K skb attrtype (K.SK_MEMINFO_VARS * 4) with
  | none => (-K.EMSGSIZE, skb)
  | some (rta, skb1) =>
    let mem := rta.data
    let mem := mem.set K.SK_MEMINFO_RMEM_ALLOC (to_u32 sk.sk_rmem_alloc_get)
    let mem := mem.set K.SK_MEMINFO_RCVBUF (to_u32 sk.sk_rcvbuf)
    let mem := mem.set K.SK_MEMINFO_WMEM_ALLOC (to_u32 sk.sk_wmem_alloc_get)
    let mem := mem.set K.SK_MEMINFO_SNDBUF (to_u32 sk.sk_sndbuf)
    let mem := mem.set K.SK_MEMINFO_FWD_ALLOC (to_u32 sk.sk_forward_alloc)
    let mem := mem.set K.SK_MEMINFO_WMEM_QUEUED (to_u32 sk.sk_wmem_queued)
    let mem := mem.set K.SK_MEMINFO_OPTMEM (to_u32 sk.sk_omem_alloc)
    (0, { skb1 with attrs := skb1.attrs ++ [{ rta with data := mem }] })

/-! ## Reading a trace -/

/-- The state of mutex `m` after event `e`, given its state `h` before. -/
def lockStep (m : Mutex) (h : Bool) (e : Event) : Bool :=
  if e = .mutex_lock m then true
  else if e = .mutex_unlock m then false
  else h

/-- Is mutex `m` held by the executing thread after the events of `tr`, given that it
was (`h = true`) or was not held before them? -/
def heldFrom (m : Mutex) (h : Bool) (tr : List Event) : Bool :=
  tr.foldl (lockStep m) h

/-- Is mutex `m` held by the executing thread at the end of the trace? -/
def held (m : Mutex) (tr : List Event) : Bool :=
  heldFrom m false tr

/-- Is the event a `request_module` call? -/
def Event.isRequestModule : Event → Bool
  | .request_module _ _ _ => true
  | _ => false

/-- Is the event a write to the handler table or to the compat slot? -/
def Event.isStore : Event → Bool
  | .store_handler _ => true
  | .store_compat => true
  | _ => false

/-- Is the event a read of the handler table or of the compat slot? -/
def Event.isLoad : Event → Bool
  | .load_handler _ => true
  | .load_compat => true
  | _ => false

/-- The slot of the handler table an event indexes, if it indexes one. -/
def Event.tableIndex : Event → Option Nat
  | .load_handler i => some i
  | .store_handler i => some i
  | _ => none

/-- Scan of a list of events, `h` being the state of mutex `m` before it: is `m` in
state `want` at every event that satisfies `p`? -/
def lockedAt (m : Mutex) (p : Event → Bool) (want : Bool) : Bool → List Event → Bool
  | _, [] => true
  | h, e :: tr => (!p e || h == want) && lockedAt m p want (lockStep m h e) tr

/-! ## What the dispatch path appends to the trace -/

/-- The registry as the legacy branch of `sock_diag_rcv_msg` finds it once it holds the
lock: the one it started from if the compat slot was occupied, otherwise the one left
by the `request_module` attempt. -/
def resolved_compat (K : Consts) (E : Env) (r : Registry) : Registry :=
  if r.inet_rcv_compat = none then
    E.request_module K.PF_NETLINK K.NETLINK_SOCK_DIAG K.AF_INET r
  else r

/-- The handler operation `__sock_diag_cmd` calls for the occupant `hndl` it read under
the lock, as an event; none if it calls nothing. -/
def cmd_call_events (K : Consts) (E : Env) (nlh : nlmsghdr) : Option Nat → List Event
  | none => []
  | some h =>
    if nlh.nlmsg_type = K.SOCK_DIAG_BY_FAMILY then [Event.dump h nlh]
    else if nlh.nlmsg_type = K.SOCK_DESTROY_BACKPORT then
      match (E.handler h).destroy with
      | some _ => [Event.destroy h nlh]
      | none => []
    else []

/-- The value `__sock_diag_cmd` returns for the occupant `hndl` it read under the
lock. -/
def cmd_result (K : Consts) (E : Env) (nlh : nlmsghdr) : Option Nat → Int
  | none => -K.ENOENT
  | some h =>
    if nlh.nlmsg_type = K.SOCK_DIAG_BY_FAMILY then (E.handler h).dump nlh
    else if nlh.nlmsg_type = K.SOCK_DESTROY_BACKPORT then
      match (E.handler h).destroy with
      | some destroy => destroy nlh
      | none => -K.EOPNOTSUPP
    else -K.EOPNOTSUPP

/-- The events `__sock_diag_cmd` appends to the trace when it starts from registry
`r`. -/
def cmd_events (K : Consts) (E : Env) (nlh : nlmsghdr) (r : Registry) : List Event :=
  if nlh.payload_len < K.sizeof_sock_diag_req ∨ nlh.sdiag_family ≥ K.AF_MAX then []
  else
    lock_handler_events K nlh.sdiag_family r ++
      cmd_call_events K E nlh
        (slot (resolved K E nlh.sdiag_family r).sock_diag_handlers nlh.sdiag_family) ++
      [Event.mutex_unlock .sock_diag_table_mutex]

/-- The registry `__sock_diag_cmd` leaves when it starts from registry `r`. -/
def cmd_reg (K : Consts) (E : Env) (nlh : nlmsghdr) (r : Registry) : Registry :=
  if nlh.payload_len < K.sizeof_sock_diag_req ∨ nlh.sdiag_family ≥ K.AF_MAX then r
  else resolved K E nlh.sdiag_family r

/-- The events the legacy branch of `sock_diag_rcv_msg` appends to the trace when it
starts from registry `r`. -/
def compat_events (K : Consts) (E : Env) (nlh : nlmsghdr) (r : Registry) : List Event :=
  [Event.load_compat] ++
    (if r.inet_rcv_compat = none then
      [Event.request_module K.PF_NETLINK K.NETLINK_SOCK_DIAG K.AF_INET]
    else []) ++
    [Event.mutex_lock .sock_diag_table_mutex, Event.load_compat] ++
    (match (resolved_compat K E r).inet_rcv_compat with
      | some fn => [Event.compat fn nlh]
      | none => []) ++
    [Event.mutex_unlock .sock_diag_table_mutex]

/-- Is the message type one of the two legacy types? -/
def is_legacy (K : Consts) (nlh : nlmsghdr) : Prop :=
  nlh.nlmsg_type = K.TCPDIAG_GETSOCK ∨ nlh.nlmsg_type = K.DCCPDIAG_GETSOCK

/-- Is the message type dump-by-family or destroy? -/
def is_cmd (K : Consts) (nlh : nlmsghdr) : Prop :=
  nlh.nlmsg_type = K.SOCK_DIAG_BY_FAMILY ∨ nlh.nlmsg_type = K.SOCK_DESTROY_BACKPORT

instance (K : Consts) (nlh : nlmsghdr) : Decidable (is_legacy K nlh) := by
  unfold is_legacy; infer_instance

instance (K : Consts) (nlh : nlmsghdr) : Decidable (is_cmd K nlh) := by
  unfold is_cmd; infer_instance

/-- The events `sock_diag_rcv_msg` appends to the trace when it starts from registry
`r`. -/
def rcv_msg_events (K : Consts) (E : Env) (nlh : nlmsghdr) (r : Registry) : List Event :=
  if is_legacy K nlh then compat_events K E nlh r
  else if is_cmd K nlh then cmd_events K E nlh r
  else []

/-- The registry `sock_diag_rcv_msg` leaves when it starts from registry `r`. -/
def rcv_msg_reg (K : Consts) (E : Env) (nlh : nlmsghdr) (r : Registry) : Registry :=
  if is_legacy K nlh then resolved_compat K E r
  else if is_cmd K nlh then cmd_reg K E nlh r
  else r

/-- The registry `netlink_rcv_skb` leaves after running `sock_diag_rcv_msg` on the
messages of `skb`, starting from registry `r`. -/
def rcv_skb_reg (K : Consts) (E : Env) : List nlmsghdr → Registry → Registry
  | [], r => r
  | nlh :: rest, r => rcv_skb_reg K E rest (rcv_msg_reg K E nlh r)

/-- The events appended to the trace while `netlink_rcv_skb` runs `sock_diag_rcv_msg`
on the messages of `skb`, starting from registry `r`. -/
def rcv_skb_events (K : Consts) (E : Env) : List nlmsghdr → Registry → List Event
  | [], _ => []
  | nlh :: rest, r =>
    rcv_msg_events K E nlh r ++ rcv_skb_events K E rest (rcv_msg_reg K E nlh r)

/-! ## Socket cookies -/

/-- The fields of `struct sock` that the cookie code touches: the owning namespace
`sock_net(sk)` (as the name of a namespace) and the 64-bit cell `sk_cookie`. -/
structure sock where
  sk_net : Nat
  sk_cookie : Nat
deriving DecidableEq, Repr

/-- Sockets and namespaces: `cookie_gen n` is the counter `cookie_gen` of namespace
`n`; a `struct sock *` is an index into `socks`. -/
structure SkState where
  cookie_gen : Nat → Nat
  socks : List sock

/-- Model of `atomic64_inc_return(v)` on a 64-bit cell holding `v`: the new value of the
cell, which is also the value returned. -/
def atomic64_inc_return (v : Nat) : Nat :=
  (v + 1) % 2 ^ 64

/-- Model of `atomic64_cmpxchg(v, old, new)` on a cell holding `v`: the new value of
the cell. -/
def atomic64_cmpxchg (v old new : Nat) : Nat :=
  if v = old then new else v

/-- The cookie cell of socket `sk`, if `sk` names a socket. -/
def SkState.cookie (w : SkState) (sk : Nat) : Option Nat :=
  w.socks[sk]?.map sock.sk_cookie

/-- Model of `sock_gen_cookie(sk)`. The first argument bounds the number of iterations
of the `while (1)` loop; `none` means the budget ran out or `sk` names no socket. -/
def sock_gen_cookie : Nat → SkState → Nat → Option (Nat × SkState)
  | 0, _, _ => none
  | fuel + 1, w, sk =>
    match w.socks[sk]? with
    | none => none
    | some s =>
      let res := s.sk_cookie
      if res ≠ 0 then
        some (res, w)
      else
        let res := atomic64_inc_return (w.cookie_gen s.sk_net)
        let w1 : SkState := { w with cookie_gen := Function.update w.cookie_gen s.sk_net res }
        let w2 : SkState :=
          { w1 with socks := w1.socks.set sk { s with sk_cookie := atomic64_cmpxchg s.sk_cookie 0 res } }
        sock_gen_cookie fuel w2 sk

/-- The state after one iteration of the loop of `sock_gen_cookie` that found the cookie
of socket `sk` (whose fields are `s`) unset: the counter of the namespace is incremented
and the compare-and-swap is applied to the cookie cell. -/
def SkState.draw (w : SkState) (sk : Nat) (s : sock) : SkState :=
  { cookie_gen :=
      Function.update w.cookie_gen s.sk_net (atomic64_inc_return (w.cookie_gen s.sk_net))
    socks :=
      w.socks.set sk
        { s with
          sk_cookie :=
            atomic64_cmpxchg s.sk_cookie 0 (atomic64_inc_return (w.cookie_gen s.sk_net)) } }

/-- Model of `sock_diag_check_cookie(sk, cookie)`; `cookie` is the pair
`(cookie[0], cookie[1])`. -/
def sock_diag_check_cookie (K : Consts) (fuel : Nat) (w : SkState) (sk : Nat)
    (cookie : Nat × Nat) : Option (Int × SkState) :=
  if cookie.1 = K.INET_DIAG_NOCOOKIE ∧ cookie.2 = K.INET_DIAG_NOCOOKIE then
    some (0, w)
  else
    match sock_gen_cookie fuel w sk with
    | none => none
    | some (res, w1) =>
      if res % 2 ^ 32 ≠ cookie.1 ∨ (res >>> 32) % 2 ^ 32 ≠ cookie.2 then
        some (-K.ESTALE, w1)
      else
        some (0, w1)

/-- Model of `sock_diag_save_cookie(sk, cookie)`: the pair written to
`(cookie[0], cookie[1])` and the new state. -/
def sock_diag_save_cookie (fuel : Nat) (w : SkState) (sk : Nat) :
    Option ((Nat × Nat) × SkState) :=
  match sock_gen_cookie fuel w sk with
  | none => none
  | some (res, w1) => some ((res % 2 ^ 32, (res >>> 32) % 2 ^ 32), w1)

/-- A call of one of the three cookie operations. -/
inductive CookieOp where
  | gen (sk : Nat)
  | check (sk : Nat) (cookie : Nat × Nat)
  | save (sk : Nat)
deriving DecidableEq, Repr

/-- The socket a call is made on. -/
def CookieOp.sk : CookieOp → Nat
  | .gen sk => sk
  | .check sk _ => sk
  | .save sk => sk

/-- The state after a call, when the call returns. -/
def CookieOp.run (K : Consts) (fuel : Nat) (w : SkState) : CookieOp → Option SkState
  | .gen sk => (sock_gen_cookie fuel w sk).map Prod.snd
  | .check sk cookie => (sock_diag_check_cookie K fuel w sk cookie).map Prod.snd
  | .save sk => (sock_diag_save_cookie fuel w sk).map Prod.snd

/-- One call of a cookie operation, on any socket, takes `w` to `w2`. -/
def CookieStep (K : Consts) (w w2 : SkState) : Prop :=
  ∃ (fuel : Nat) (op : CookieOp), op.run K fuel w = some w2

/-- States reachable from `w0` by a sequence of calls of the cookie operations. -/
inductive CookieReachable (K : Consts) (w0 : SkState) : SkState → Prop where
  | init : CookieReachable K w0 w0
  | step {w w2 : SkState} : CookieReachable K w0 w → CookieStep K w w2 →
      CookieReachable K w0 w2

/-- Number of sockets of namespace `ns` whose cookie is set. -/
def setCount (ns : Nat) (l : List sock) : Nat :=
  l.countP (fun s => decide (s.sk_net = ns ∧ s.sk_cookie ≠ 0))

/-- The invariant behind cookie uniqueness in namespace `ns`, relative to the value
`c0` the counter of `ns` had initially. For some number `d` of increments made so far:
the counter is `c0 + d` modulo `2 ^ 64`; `d` is at most the number of set cookies, plus
one once the increment that wraps to 0 has happened; every set cookie of the namespace
is the value of one of the `d` increments; and set cookies of different sockets of the
namespace differ. -/
def CookieInv (ns c0 : Nat) (w : SkState) : Prop :=
  w.socks.length < 2 ^ 64 ∧
  ∃ d : Nat,
    w.cookie_gen ns % 2 ^ 64 = (c0 + d) % 2 ^ 64 ∧
    d ≤ setCount ns w.socks + (if 2 ^ 64 - c0 % 2 ^ 64 ≤ d then 1 else 0) ∧
    (∀ (i : Nat) (s : sock), w.socks[i]? = some s → s.sk_net = ns → s.sk_cookie ≠ 0 →
      ∃ k, 1 ≤ k ∧ k ≤ d ∧ s.sk_cookie = (c0 + k) % 2 ^ 64) ∧
    (∀ (i j : Nat) (si sj : sock), w.socks[i]? = some si → w.socks[j]? = some sj → i ≠ j →
      si.sk_net = ns → sj.sk_net = ns → si.sk_cookie ≠ 0 → sj.sk_cookie ≠ 0 →
      si.sk_cookie ≠ sj.sk_cookie)

/-! ## Concrete data used to evaluate the definitions -/

/-- An environment with two handler objects per family: pointers `2 * f` (without
`destroy`) and `2 * f + 1` (with `destroy`) both carry family `f`. The caller is
privileged; sockets with an odd name have a protocol with `diag_destroy`. -/
def demoEnv : Env where
  handler := fun p =>
    { family := p / 2
      dump := fun nlh => (nlh.payload_len : Int)
      destroy := if p % 2 = 1 then some (fun _ => -104) else none }
  compat := fun _ _ => 0
  request_module := fun _ _ _ r => r
  capable := fun _ => true
  diag_destroy := fun sk => if sk % 2 = 1 then some (fun _ err => -err) else none

/-- A registry of 40 empty slots and an empty compat slot, nothing traced. -/
def emptyState : State :=
  { reg := { sock_diag_handlers := List.replicate 40 none, inet_rcv_compat := none },
    trace := [] }

/-- Three sockets of namespace 0, the second with cookie 7, and a counter at 7. -/
def demoSocks : SkState :=
  { cookie_gen := fun _ => 7
    socks := [{ sk_net := 0, sk_cookie := 0 }, { sk_net := 0, sk_cookie := 7 },
              { sk_net := 0, sk_cookie := 0 }] }

/-- One socket with an unset cookie in a namespace whose counter is at its maximum. -/
def wrapSocks : SkState :=
  { cookie_gen := fun _ => 2 ^ 64 - 1
    socks := [{ sk_net := 0, sk_cookie := 0 }] }

/-- One socket whose cookie is `2 ^ 64 - 1`: both 32-bit halves are `0xFFFFFFFF`. -/
def sentinelSocks : SkState :=
  { cookie_gen := fun _ => 0
    socks := [{ sk_net := 0, sk_cookie := 2 ^ 64 - 1 }] }

/-- Two sockets of namespace 0 with unset cookies, every counter at 0. -/
def freshSocks : SkState :=
  { cookie_gen := fun _ => 0
    socks := [{ sk_net := 0, sk_cookie := 0 }, { sk_net := 0, sk_cookie := 0 }] }

/-- The state `freshSocks` after a first cookie request on socket 0 and then one on
socket 1. -/
def freshSocksDrawn : SkState :=
  (freshSocks.draw 0 { sk_net := 0, sk_cookie := 0 }).draw 1 { sk_net := 0, sk_cookie := 0 }

/-- The environment `demoEnv` seen by a caller without any capability. -/
def unprivEnv : Env :=
  { demoEnv with capable := fun _ => false }

/-- A socket's memory accounting with one negative field. -/
def demoMem : sock_mem :=
  { sk_rmem_alloc_get := 1, sk_rcvbuf := 2, sk_wmem_alloc_get := 3, sk_sndbuf := 4,
    sk_forward_alloc := -1, sk_wmem_queued := 6, sk_omem_alloc := 7 }

/-- An empty buffer with the given tailroom, whose unwritten words hold 1000, 1001, … -/
def demoSkb (tailroom : Nat) : sk_buff :=
  { attrs := [], tailroom := tailroom, uninit := fun i => 1000 + i }

/-! ## Handler registry: theorems -/

theorem slot_set_self (tbl : List (Option Nat)) (i : Nat) (v : Option Nat)
    (hi : i < tbl.length) : slot (tbl.set i v) i = v := by
  simp [slot, List.getD_eq_getElem?_getD, List.getElem?_set, hi]

theorem slot_set_other (tbl : List (Option Nat)) (i j : Nat) (v : Option Nat)
    (hij : j ≠ i) : slot (tbl.set i v) j = slot tbl j := by
  simp [slot, List.getD_eq_getElem?_getD, List.getElem?_set, Ne.symm hij]

theorem slot_set_none (tbl : List (Option Nat)) (i : Nat) :
    slot (tbl.set i none) i = none := by
  by_cases hi : i < tbl.length
  · exact slot_set_self tbl i none hi
  · simp [slot, List.getD_eq_getElem?_getD, List.getElem?_set, hi]

/-- C1: when slot `f` of the table already holds a handler `A`, registering a handler
`B` of family `f` returns `-EBUSY` and leaves the table and the compat slot as they
were; when slot `f` is empty it returns 0 and the new table is the old one with slot
`f` set to `B` (every other slot, the number of slots and the compat slot unchanged). -/
theorem sock_diag_register_busy_or_installs (K : Consts) (E : Env) (B : Nat) (s : State)
    (hf : (E.handler B).family < K.AF_MAX)
    (hlen : s.reg.sock_diag_handlers.length = K.AF_MAX) :
    (∀ A, slot s.reg.sock_diag_handlers (E.handler B).family = some A →
      (sock_diag_register K E B s).1 = -K.EBUSY ∧
      (sock_diag_register K E B s).2.reg = s.reg ∧
      slot (sock_diag_register K E B s).2.reg.sock_diag_handlers (E.handler B).family
        = some A) ∧
    (slot s.reg.sock_diag_handlers (E.handler B).family = none →
      (sock_diag_register K E B s).1 = 0 ∧
      (sock_diag_register K E B s).2.reg =
        { s.reg with
          sock_diag_handlers := s.reg.sock_diag_handlers.set (E.handler B).family (some B) } ∧
      slot (sock_diag_register K E B s).2.reg.sock_diag_handlers (E.handler B).family
        = some B ∧
      (∀ g, g ≠ (E.handler B).family →
        slot (sock_diag_register K E B s).2.reg.sock_diag_handlers g
          = slot s.reg.sock_diag_handlers g) ∧
      (sock_diag_register K E B s).2.reg.sock_diag_handlers.length
        = s.reg.sock_diag_handlers.length ∧
      (sock_diag_register K E B s).2.reg.inet_rcv_compat = s.reg.inet_rcv_compat) := by
  have hge : ¬ (E.handler B).family ≥ K.AF_MAX := by omega
  constructor
  · intro A hA
    simp [sock_diag_register, hge, load_handler, mutex_lock, mutex_unlock, State.emit, hA]
  · intro hnone
    have hi : (E.handler B).family < s.reg.sock_diag_handlers.length := by omega
    have heq : sock_diag_register K E B s =
        (0, mutex_unlock .sock_diag_table_mutex
          (store_handler (E.handler B).family (some B)
            (load_handler (E.handler B).family
              (mutex_lock .sock_diag_table_mutex s)).2)) := by
      simp [sock_diag_register, hge, load_handler, mutex_lock, State.emit, hnone]
    rw [heq]
    refine ⟨rfl, rfl, slot_set_self _ _ _ hi, ?_, ?_, rfl⟩
    · intro g hg
      exact slot_set_other _ _ _ _ hg
    · simp [mutex_unlock, State.emit, store_handler, load_handler, mutex_lock]

/-- C1, evaluated: in a 40-slot table whose slot 2 holds handler 4, registering handler
5 (family 2) gives `-EBUSY`; in the empty table it gives 0 and installs 5. -/
theorem sock_diag_register_busy_or_installs_witness :
    ((sock_diag_register linux34 demoEnv 5
        (sock_diag_register linux34 demoEnv 4 emptyState).2).1 = -16 ∧
      (sock_diag_register linux34 demoEnv 5
        (sock_diag_register linux34 demoEnv 4 emptyState).2).2.reg
        = (sock_diag_register linux34 demoEnv 4 emptyState).2.reg) ∧
    ((sock_diag_register linux34 demoEnv 5 emptyState).1 = 0 ∧
      slot (sock_diag_register linux34 demoEnv 5 emptyState).2.reg.sock_diag_handlers 2
        = some 5) := by
  have h1 := (sock_diag_register_busy_or_installs linux34 demoEnv 5
    (sock_diag_register linux34 demoEnv 4 emptyState).2 (by decide) (by decide)).1 4
    (by decide)
  have h2 := (sock_diag_register_busy_or_installs linux34 demoEnv 5 emptyState
    (by decide) (by decide)).2 (by decide)
  exact ⟨⟨h1.1, h1.2.1⟩, ⟨h2.1, h2.2.2.1⟩⟩

/-- C2: for a handler whose family tag is `>= AF_MAX`, `sock_diag_register` returns
`-EINVAL` and `sock_diag_unregister` returns normally, and in both cases the state is
the one before the call: table and compat slot unchanged and nothing appended to the
trace, so no slot was read or written and no mutex taken. -/
theorem sock_diag_register_unregister_out_of_range (K : Consts) (E : Env) (h : Nat)
    (s : State) (hf : K.AF_MAX ≤ (E.handler h).family) :
    sock_diag_register K E h s = (-K.EINVAL, s) ∧
    sock_diag_unregister K E h s = .ok s := by
  constructor
  · simp [sock_diag_register, hf]
  · simp [sock_diag_unregister, hf]

/-- C2, evaluated: handler 80 has family 40 = `AF_MAX`. -/
theorem sock_diag_register_unregister_out_of_range_witness :
    sock_diag_register linux34 demoEnv 80 emptyState = (-22, emptyState) ∧
    sock_diag_unregister linux34 demoEnv 80 emptyState = .ok emptyState :=
  sock_diag_register_unregister_out_of_range linux34 demoEnv 80 emptyState (by decide)

/-- C3: for a handler `h` with in-range family `f`, `sock_diag_unregister` ends in
`BUG` exactly when the occupant of slot `f` is not `h` (an empty slot included); when the
occupant is `h` it returns normally, slot `f` is then empty, and every other slot, the
number of slots and the compat slot are unchanged. -/
theorem sock_diag_unregister_bug_iff_mismatch (K : Consts) (E : Env) (h : Nat) (s : State)
    (hf : (E.handler h).family < K.AF_MAX) :
    (sock_diag_unregister K E h s = .error .BUG ↔
      slot s.reg.sock_diag_handlers (E.handler h).family ≠ some h) ∧
    (slot s.reg.sock_diag_handlers (E.handler h).family = some h →
      ∃ s2, sock_diag_unregister K E h s = .ok s2 ∧
        slot s2.reg.sock_diag_handlers (E.handler h).family = none ∧
        (∀ g, g ≠ (E.handler h).family →
          slot s2.reg.sock_diag_handlers g = slot s.reg.sock_diag_handlers g) ∧
        s2.reg.sock_diag_handlers.length = s.reg.sock_diag_handlers.length ∧
        s2.reg.inet_rcv_compat = s.reg.inet_rcv_compat) := by
  have hge : ¬ (E.handler h).family ≥ K.AF_MAX := by omega
  constructor
  · by_cases hc : slot s.reg.sock_diag_handlers (E.handler h).family = some h
    · simp [sock_diag_unregister, hge, load_handler, mutex_lock, State.emit, hc]
    · simp [sock_diag_unregister, hge, load_handler, mutex_lock, State.emit, hc]
  · intro hc
    refine ⟨mutex_unlock .sock_diag_table_mutex
      (store_handler (E.handler h).family none
        (load_handler (E.handler h).family
          (mutex_lock .sock_diag_table_mutex s)).2), ?_, ?_, ?_, ?_, ?_⟩
    · simp [sock_diag_unregister, hge, load_handler, mutex_lock, State.emit, hc]
    · exact slot_set_none _ _
    · intro g hg
      exact slot_set_other _ _ _ _ hg
    · simp [mutex_unlock, State.emit, store_handler, load_handler, mutex_lock]
    · rfl

/-- C3, evaluated: with handler 4 in slot 2, unregistering handler 5 (also family 2)
and unregistering from the empty table both end in `BUG`; unregistering 4 returns. -/
theorem sock_diag_unregister_bug_iff_mismatch_witness :
    sock_diag_unregister linux34 demoEnv 5
        (sock_diag_register linux34 demoEnv 4 emptyState).2 = .error .BUG ∧
    sock_diag_unregister linux34 demoEnv 5 emptyState = .error .BUG ∧
    ∃ s2, sock_diag_unregister linux34 demoEnv 4
        (sock_diag_register linux34 demoEnv 4 emptyState).2 = .ok s2 ∧
      slot s2.reg.sock_diag_handlers 2 = none := by
  refine ⟨?_, ?_, ?_⟩
  · exact (sock_diag_unregister_bug_iff_mismatch linux34 demoEnv 5
      (sock_diag_register linux34 demoEnv 4 emptyState).2 (by decide)).1.2 (by decide)
  · exact (sock_diag_unregister_bug_iff_mismatch linux34 demoEnv 5 emptyState
      (by decide)).1.2 (by decide)
  · obtain ⟨s2, h1, h2, _⟩ := (sock_diag_unregister_bug_iff_mismatch linux34 demoEnv 4
      (sock_diag_register linux34 demoEnv 4 emptyState).2 (by decide)).2 (by decide)
    exact ⟨s2, h1, h2⟩

/-! ## Socket cookies: theorems -/

theorem sock_gen_cookie_of_set (n : Nat) (w : SkState) (sk : Nat) (s : sock)
    (hs : w.socks[sk]? = some s) (hne : s.sk_cookie ≠ 0) :
    sock_gen_cookie (n + 1) w sk = some (s.sk_cookie, w) := by
  simp [sock_gen_cookie, hs, hne]

theorem sock_gen_cookie_of_unset (n : Nat) (w : SkState) (sk : Nat) (s : sock)
    (hs : w.socks[sk]? = some s) (h0 : s.sk_cookie = 0) :
    sock_gen_cookie (n + 1) w sk = sock_gen_cookie n (w.draw sk s) sk := by
  simp [sock_gen_cookie, hs, h0, SkState.draw]

theorem draw_socks_self (w : SkState) (sk : Nat) (s : sock)
    (hs : w.socks[sk]? = some s) (h0 : s.sk_cookie = 0) :
    (w.draw sk s).socks[sk]? =
      some { s with sk_cookie := atomic64_inc_return (w.cookie_gen s.sk_net) } := by
  have hlt : sk < w.socks.length := by
    rcases List.getElem?_eq_some_iff.1 hs with ⟨h, _⟩
    exact h
  simp [SkState.draw, List.getElem?_set, hlt, atomic64_cmpxchg, h0]

theorem draw_cookie_gen_self (w : SkState) (sk : Nat) (s : sock) :
    (w.draw sk s).cookie_gen s.sk_net = atomic64_inc_return (w.cookie_gen s.sk_net) := by
  simp [SkState.draw]

/-- Totality of the generator on a valid socket: three iterations always suffice, the
value returned is non-zero and is the cookie the socket holds afterwards; a cookie that
was already set is returned without any change of state. -/
theorem sock_gen_cookie_total (w : SkState) (sk : Nat) (s : sock)
    (hs : w.socks[sk]? = some s) (fuel : Nat) (hfuel : 3 ≤ fuel) :
    ∃ v w2, sock_gen_cookie fuel w sk = some (v, w2) ∧ v ≠ 0 ∧
      w2.socks[sk]? = some { s with sk_cookie := v } ∧
      (s.sk_cookie ≠ 0 → v = s.sk_cookie ∧ w2 = w) ∧
      (s.sk_cookie < 2 ^ 64 → v < 2 ^ 64) := by
  obtain ⟨n, rfl⟩ : ∃ n, fuel = n + 3 := ⟨fuel - 3, by omega⟩
  by_cases hne : s.sk_cookie ≠ 0
  · refine ⟨s.sk_cookie, w, sock_gen_cookie_of_set _ w sk s hs hne, hne, ?_, ?_, ?_⟩
    · simpa using hs
    · intro _; exact ⟨rfl, rfl⟩
    · intro h; exact h
  · have h0 : s.sk_cookie = 0 := by omega
    have hs1 := draw_socks_self w sk s hs h0
    rw [sock_gen_cookie_of_unset _ w sk s hs h0]
    by_cases hr : atomic64_inc_return (w.cookie_gen s.sk_net) ≠ 0
    · refine ⟨_, _, sock_gen_cookie_of_set _ _ sk _ hs1 hr, hr, hs1, ?_, ?_⟩
      · intro h; exact absurd h0 h
      · intro _
        show atomic64_inc_return (w.cookie_gen s.sk_net) < 2 ^ 64
        exact Nat.mod_lt _ (by norm_num)
    · have hr0 : atomic64_inc_return (w.cookie_gen s.sk_net) = 0 := by omega
      rw [sock_gen_cookie_of_unset _ _ sk _ hs1 hr0]
      have hs2 := draw_socks_self _ sk _ hs1 hr0
      have hc : (w.draw sk s).cookie_gen s.sk_net = 0 := by
        rw [draw_cookie_gen_self, hr0]
      have hone : atomic64_inc_return ((w.draw sk s).cookie_gen s.sk_net) = 1 := by
        rw [hc]; rfl
      simp only [hone] at hs2
      refine ⟨1, _, sock_gen_cookie_of_set _ _ sk _ hs2 (by simp), by simp, hs2, ?_, ?_⟩
      · intro h; exact absurd h0 h
      · intro _; norm_num

/-- C4: on a valid socket, whatever the namespace counter holds (the maximum included),
`sock_gen_cookie` returns within three iterations of its loop; the value is non-zero,
it is the cookie stored in the socket afterwards, and a second call returns the same
value and changes nothing. -/
theorem sock_gen_cookie_terminates_stable (w : SkState) (sk : Nat) (s : sock)
    (hs : w.socks[sk]? = some s) (fuel : Nat) (hfuel : 3 ≤ fuel) :
    ∃ v w2, sock_gen_cookie fuel w sk = some (v, w2) ∧ v ≠ 0 ∧
      w2.cookie sk = some v ∧ sock_gen_cookie fuel w2 sk = some (v, w2) := by
  obtain ⟨v, w2, hrun, hv, hs2, _, _⟩ := sock_gen_cookie_total w sk s hs fuel hfuel
  refine ⟨v, w2, hrun, hv, ?_, ?_⟩
  · simp [SkState.cookie, hs2]
  · obtain ⟨n, rfl⟩ : ∃ n, fuel = n + 1 := ⟨fuel - 1, by omega⟩
    exact sock_gen_cookie_of_set n w2 sk _ hs2 hv

/-- C4, evaluated at a counter holding `2 ^ 64 - 1`: the increment wraps to 0, nothing is
installed, and the call still returns a non-zero cookie, twice the same. -/
theorem sock_gen_cookie_terminates_stable_witness :
    ∃ v w2, sock_gen_cookie 3 wrapSocks 0 = some (v, w2) ∧ v ≠ 0 ∧
      w2.cookie 0 = some v ∧ sock_gen_cookie 3 w2 0 = some (v, w2) :=
  sock_gen_cookie_terminates_stable wrapSocks 0 { sk_net := 0, sk_cookie := 0 } rfl 3
    (by decide)

theorem sock_gen_cookie_keeps_set (fuel : Nat) :
    ∀ (w : SkState) (sk2 v : Nat) (w2 : SkState),
      sock_gen_cookie fuel w sk2 = some (v, w2) →
      ∀ (sk : Nat) (s : sock), w.socks[sk]? = some s → s.sk_cookie ≠ 0 →
        w2.socks[sk]? = some s := by
  induction fuel with
  | zero =>
    intro w sk2 v w2 h
    simp [sock_gen_cookie] at h
  | succ n ih =>
    intro w sk2 v w2 h sk s hs hne
    cases h2 : w.socks[sk2]? with
    | none => simp [sock_gen_cookie, h2] at h
    | some s2 =>
      by_cases hc : s2.sk_cookie ≠ 0
      · rw [sock_gen_cookie_of_set n w sk2 s2 h2 hc] at h
        obtain ⟨_, rfl⟩ := Prod.mk.inj (Option.some.inj h)
        exact hs
      · have h0 : s2.sk_cookie = 0 := by omega
        rw [sock_gen_cookie_of_unset n w sk2 s2 h2 h0] at h
        refine ih _ sk2 v w2 h sk s ?_ hne
        have hsk : sk2 ≠ sk := by
          rintro rfl
          rw [h2] at hs
          exact hne (by rw [← Option.some.inj hs]; exact h0)
        simp [SkState.draw, List.getElem?_set_ne hsk, hs]

theorem cookieOp_run_keeps_set (K : Consts) (fuel : Nat) (w w2 : SkState) (op : CookieOp)
    (h : op.run K fuel w = some w2) (sk : Nat) (s : sock)
    (hs : w.socks[sk]? = some s) (hne : s.sk_cookie ≠ 0) :
    w2.socks[sk]? = some s := by
  cases op with
  | gen sk2 =>
    simp only [CookieOp.run, Option.map_eq_some'] at h
    obtain ⟨⟨v, w3⟩, hg, rfl⟩ := h
    exact sock_gen_cookie_keeps_set fuel w sk2 v w3 hg sk s hs hne
  | check sk2 cookie =>
    simp only [CookieOp.run, Option.map_eq_some'] at h
    obtain ⟨⟨r, w3⟩, hg, rfl⟩ := h
    unfold sock_diag_check_cookie at hg
    split at hg
    · obtain ⟨_, rfl⟩ := Prod.mk.inj (Option.some.inj hg)
      exact hs
    · cases hgen : sock_gen_cookie fuel w sk2 with
      | none => simp [hgen] at hg
      | some p =>
        obtain ⟨v, w4⟩ := p
        simp only [hgen] at hg
        have h4 := sock_gen_cookie_keeps_set fuel w sk2 v w4 hgen sk s hs hne
        split at hg
        · obtain ⟨_, rfl⟩ := Prod.mk.inj (Option.some.inj hg)
          exact h4
        · obtain ⟨_, rfl⟩ := Prod.mk.inj (Option.some.inj hg)
          exact h4
  | save sk2 =>
    simp only [CookieOp.run, Option.map_eq_some'] at h
    obtain ⟨⟨c, w3⟩, hg, rfl⟩ := h
    unfold sock_diag_save_cookie at hg
    cases hgen : sock_gen_cookie fuel w sk2 with
    | none => simp [hgen] at hg
    | some p =>
      obtain ⟨v, w4⟩ := p
      simp only [hgen] at hg
      obtain ⟨_, rfl⟩ := Prod.mk.inj (Option.some.inj hg)
      exact sock_gen_cookie_keeps_set fuel w sk2 v w4 hgen sk s hs hne

theorem cookieOp_run_total (K : Consts) (w : SkState) (op : CookieOp) (s : sock)
    (hs : w.socks[op.sk]? = some s) (fuel : Nat) (hfuel : 3 ≤ fuel) :
    ∃ w2, op.run K fuel w = some w2 := by
  cases op with
  | gen sk2 =>
    obtain ⟨v, w2, hrun, _⟩ := sock_gen_cookie_total w sk2 s hs fuel hfuel
    exact ⟨w2, by simp [CookieOp.run, hrun]⟩
  | check sk2 cookie =>
    obtain ⟨v, w2, hrun, _⟩ := sock_gen_cookie_total w sk2 s hs fuel hfuel
    by_cases hw : cookie.1 = K.INET_DIAG_NOCOOKIE ∧ cookie.2 = K.INET_DIAG_NOCOOKIE
    · exact ⟨w, by simp [CookieOp.run, sock_diag_check_cookie, hw]⟩
    · by_cases hm : v % 2 ^ 32 ≠ cookie.1 ∨ (v >>> 32) % 2 ^ 32 ≠ cookie.2
      · exact ⟨w2, by simp only [CookieOp.run, sock_diag_check_cookie, hw, hrun, hm]; simp⟩
      · exact ⟨w2, by simp only [CookieOp.run, sock_diag_check_cookie, hw, hrun, hm]; simp⟩
  | save sk2 =>
    obtain ⟨v, w2, hrun, _⟩ := sock_gen_cookie_total w sk2 s hs fuel hfuel
    exact ⟨w2, by simp [CookieOp.run, sock_diag_save_cookie, hrun]⟩

/-- C6: if socket `sk` holds a non-zero cookie, then after any call of
`sock_gen_cookie`, `sock_diag_check_cookie` (any candidate) or `sock_diag_save_cookie`
on any socket, `sk` holds the same cookie; such a call does return when made on a valid
socket with three iterations allowed; and `sock_gen_cookie` on `sk` itself returns that
cookie and leaves the counter of every namespace where it was. -/
theorem cookie_immutable_once_set (K : Consts) (w : SkState) (sk : Nat) (s : sock)
    (hs : w.socks[sk]? = some s) (hne : s.sk_cookie ≠ 0) :
    (∀ (fuel : Nat) (op : CookieOp) (w2 : SkState), op.run K fuel w = some w2 →
      w2.cookie sk = w.cookie sk) ∧
    (∀ (op : CookieOp) (s2 : sock), w.socks[op.sk]? = some s2 → ∀ fuel, 3 ≤ fuel →
      ∃ w2, op.run K fuel w = some w2 ∧ w2.cookie sk = w.cookie sk) ∧
    (∀ fuel, 0 < fuel → ∃ w2, sock_gen_cookie fuel w sk = some (s.sk_cookie, w2) ∧
      w2.cookie_gen = w.cookie_gen ∧ w2.cookie sk = w.cookie sk) := by
  refine ⟨?_, ?_, ?_⟩
  · intro fuel op w2 h
    simp [SkState.cookie, cookieOp_run_keeps_set K fuel w w2 op h sk s hs hne, hs]
  · intro op s2 hs2 fuel hfuel
    obtain ⟨w2, h⟩ := cookieOp_run_total K w op s2 hs2 fuel hfuel
    exact ⟨w2, h, by
      simp [SkState.cookie, cookieOp_run_keeps_set K fuel w w2 op h sk s hs hne, hs]⟩
  · intro fuel hfuel
    obtain ⟨n, rfl⟩ : ∃ n, fuel = n + 1 := ⟨fuel - 1, by omega⟩
    exact ⟨w, sock_gen_cookie_of_set n w sk s hs hne, rfl, rfl⟩

/-- C6, evaluated: socket 1 holds cookie 7; a `sock_gen_cookie` on socket 0 (which
draws 8 from the counter) leaves it at 7, and `sock_gen_cookie` on socket 1 returns 7
with the counter untouched. -/
theorem cookie_immutable_once_set_witness :
    (∃ w2, (CookieOp.gen 0).run linux34 3 demoSocks = some w2 ∧
      w2.cookie 1 = demoSocks.cookie 1) ∧
    (∃ w2, sock_gen_cookie 1 demoSocks 1 = some (7, w2) ∧
      w2.cookie_gen = demoSocks.cookie_gen ∧ w2.cookie 1 = demoSocks.cookie 1) :=
  ⟨(cookie_immutable_once_set linux34 demoSocks 1 { sk_net := 0, sk_cookie := 7 } rfl
      (by decide)).2.1 (.gen 0) { sk_net := 0, sk_cookie := 0 } rfl 3 (by decide),
   (cookie_immutable_once_set linux34 demoSocks 1 { sk_net := 0, sk_cookie := 7 } rfl
      (by decide)).2.2 1 (by decide)⟩

theorem split_u64 (v : Nat) (h : v < 2 ^ 64) :
    v % 2 ^ 32 + 2 ^ 32 * ((v >>> 32) % 2 ^ 32) = v := by
  rw [Nat.shiftRight_eq_div_pow]
  omega

/-- C7: on a valid socket whose cookie cell holds any 64-bit value (zero, i.e. unset,
included), `sock_diag_save_cookie` returns a pair `(lo, hi)`; a following
`sock_diag_check_cookie` with that pair returns 0, and `lo + 2 ^ 32 * hi` is the cookie
the socket then holds. -/
theorem save_cookie_check_cookie_roundtrip (K : Consts) (w : SkState) (sk : Nat) (s : sock)
    (hs : w.socks[sk]? = some s) (h64 : s.sk_cookie < 2 ^ 64)
    (fuel : Nat) (hfuel : 3 ≤ fuel) :
    ∃ lo hi w2, sock_diag_save_cookie fuel w sk = some ((lo, hi), w2) ∧
      sock_diag_check_cookie K fuel w2 sk (lo, hi) = some (0, w2) ∧
      w2.cookie sk = some (lo + 2 ^ 32 * hi) := by
  obtain ⟨v, w2, hrun, hv, hs2, _, hlt⟩ := sock_gen_cookie_total w sk s hs fuel hfuel
  refine ⟨v % 2 ^ 32, (v >>> 32) % 2 ^ 32, w2, ?_, ?_, ?_⟩
  · simp [sock_diag_save_cookie, hrun]
  · obtain ⟨n, rfl⟩ : ∃ n, fuel = n + 1 := ⟨fuel - 1, by omega⟩
    have h2 : sock_gen_cookie (n + 1) w2 sk = some (v, w2) :=
      sock_gen_cookie_of_set n w2 sk _ hs2 hv
    unfold sock_diag_check_cookie
    split
    · rfl
    · simp [h2]
  · rw [split_u64 v (hlt h64)]
    simp [SkState.cookie, hs2]

/-- C7, evaluated on a socket whose cookie is `2 ^ 64 - 1`, both halves of which are
the sentinel `0xFFFFFFFF`, and on an unset socket under a counter about to wrap. -/
theorem save_cookie_check_cookie_roundtrip_witness :
    (∃ lo hi w2,
      sock_diag_save_cookie 3 sentinelSocks 0 = some ((lo, hi), w2) ∧
      sock_diag_check_cookie linux34 3 w2 0 (lo, hi) = some (0, w2) ∧
      w2.cookie 0 = some (lo + 2 ^ 32 * hi)) ∧
    (∃ lo hi w2, sock_diag_save_cookie 3 wrapSocks 0 = some ((lo, hi), w2) ∧
      sock_diag_check_cookie linux34 3 w2 0 (lo, hi) = some (0, w2) ∧
      w2.cookie 0 = some (lo + 2 ^ 32 * hi)) :=
  ⟨save_cookie_check_cookie_roundtrip linux34 sentinelSocks 0
      { sk_net := 0, sk_cookie := 2 ^ 64 - 1 }
      rfl (by decide) 3 (by decide),
   save_cookie_check_cookie_roundtrip linux34 wrapSocks 0 { sk_net := 0, sk_cookie := 0 }
      rfl (by decide) 3 (by decide)⟩

theorem check_cookie_of_gen (K : Consts) (fuel : Nat) (w w2 : SkState) (sk v c0 c1 : Nat)
    (hnw : ¬ (c0 = K.INET_DIAG_NOCOOKIE ∧ c1 = K.INET_DIAG_NOCOOKIE))
    (hgen : sock_gen_cookie fuel w sk = some (v, w2)) :
    sock_diag_check_cookie K fuel w sk (c0, c1) =
      some (if v % 2 ^ 32 = c0 ∧ (v / 2 ^ 32) % 2 ^ 32 = c1 then 0 else -K.ESTALE, w2) := by
  unfold sock_diag_check_cookie
  rw [if_neg hnw]
  simp only [hgen, Nat.shiftRight_eq_div_pow]
  by_cases hm : v % 2 ^ 32 = c0 ∧ (v / 2 ^ 32) % 2 ^ 32 = c1
  · have hn : ¬ (v % 2 ^ 32 ≠ c0 ∨ (v / 2 ^ 32) % 2 ^ 32 ≠ c1) := by
      rintro (h | h)
      · exact h hm.1
      · exact h hm.2
    rw [if_neg hn, if_pos hm]
  · have hp : v % 2 ^ 32 ≠ c0 ∨ (v / 2 ^ 32) % 2 ^ 32 ≠ c1 := by
      by_contra hc
      push_neg at hc
      exact hm hc
    rw [if_pos hp, if_neg hm]

/-- C8: with both candidate halves equal to `INET_DIAG_NOCOOKIE`,
`sock_diag_check_cookie` returns 0 and touches nothing, for every socket argument and
every state (no iteration of the generator is needed); a candidate of which exactly one
half is the sentinel is compared with the canonical cookie like any other candidate:
0 if both halves match it, `-ESTALE` if not. -/
theorem check_cookie_wildcard (K : Consts) (fuel : Nat) (w : SkState) (sk : Nat) :
    sock_diag_check_cookie K fuel w sk (K.INET_DIAG_NOCOOKIE, K.INET_DIAG_NOCOOKIE)
      = some (0, w) ∧
    ∀ c0 c1 : Nat, (c0 = K.INET_DIAG_NOCOOKIE ∨ c1 = K.INET_DIAG_NOCOOKIE) →
      ¬ (c0 = K.INET_DIAG_NOCOOKIE ∧ c1 = K.INET_DIAG_NOCOOKIE) →
      ∀ v w2, sock_gen_cookie fuel w sk = some (v, w2) →
        sock_diag_check_cookie K fuel w sk (c0, c1) =
          some (if v % 2 ^ 32 = c0 ∧ (v / 2 ^ 32) % 2 ^ 32 = c1 then 0 else -K.ESTALE, w2) := by
  constructor
  · simp [sock_diag_check_cookie]
  · intro c0 c1 _ hnw v w2 hgen
    exact check_cookie_of_gen K fuel w w2 sk v c0 c1 hnw hgen

/-- C8, evaluated: socket 1 holds cookie 7; the pair of sentinels is accepted, the
candidate `(0xFFFFFFFF, 0)` is rejected with `-ESTALE`. -/
theorem check_cookie_wildcard_witness :
    sock_diag_check_cookie linux34 1 demoSocks 1 (0xFFFFFFFF, 0xFFFFFFFF)
      = some (0, demoSocks) ∧
    sock_diag_check_cookie linux34 1 demoSocks 1 (0xFFFFFFFF, 0)
      = some (-116, demoSocks) :=
  ⟨(check_cookie_wildcard linux34 1 demoSocks 1).1,
   (check_cookie_wildcard linux34 1 demoSocks 1).2 0xFFFFFFFF 0 (Or.inl rfl) (by decide)
      7 demoSocks rfl⟩

/-- C9: for a valid socket and a candidate `(c0, c1)` that is not the pair of
sentinels, `sock_diag_check_cookie` returns; with `v` the value `sock_gen_cookie`
returns for the socket (assigned by that very call if the cookie was unset), the result
is `-ESTALE` exactly when `c0` differs from the low 32 bits of `v` or `c1` from its high
32 bits, and 0 otherwise. `ESTALE` is a non-zero error number. -/
theorem check_cookie_stale_iff_mismatch (K : Consts) (hE : K.ESTALE ≠ 0) (w : SkState)
    (sk : Nat) (s : sock) (hs : w.socks[sk]? = some s) (fuel : Nat) (hfuel : 3 ≤ fuel)
    (c0 c1 : Nat) (hnw : ¬ (c0 = K.INET_DIAG_NOCOOKIE ∧ c1 = K.INET_DIAG_NOCOOKIE)) :
    ∃ v w2 r, sock_gen_cookie fuel w sk = some (v, w2) ∧ w2.cookie sk = some v ∧
      sock_diag_check_cookie K fuel w sk (c0, c1) = some (r, w2) ∧
      (r = -K.ESTALE ↔ (c0 ≠ v % 2 ^ 32 ∨ c1 ≠ (v / 2 ^ 32) % 2 ^ 32)) ∧
      (¬ (c0 ≠ v % 2 ^ 32 ∨ c1 ≠ (v / 2 ^ 32) % 2 ^ 32) → r = 0) := by
  obtain ⟨v, w2, hrun, _, hs2, _, _⟩ := sock_gen_cookie_total w sk s hs fuel hfuel
  have hchk := check_cookie_of_gen K fuel w w2 sk v c0 c1 hnw hrun
  have hne : (0 : Int) ≠ -K.ESTALE := by
    intro h
    exact hE (by omega)
  refine ⟨v, w2, _, hrun, by simp [SkState.cookie, hs2], hchk, ?_, ?_⟩
  · by_cases hm : v % 2 ^ 32 = c0 ∧ (v / 2 ^ 32) % 2 ^ 32 = c1
    · rw [if_pos hm]
      constructor
      · intro h; exact absurd h hne
      · rintro (h | h)
        · exact absurd hm.1.symm h
        · exact absurd hm.2.symm h
    · rw [if_neg hm]
      constructor
      · intro _
        by_contra hcon
        push_neg at hcon
        exact hm ⟨hcon.1.symm, hcon.2.symm⟩
      · intro _; rfl
  · intro hcon
    push_neg at hcon
    rw [if_pos ⟨hcon.1.symm, hcon.2.symm⟩]

/-- C9, evaluated on socket 0 of `demoSocks`, whose cookie is unset and becomes 8: the
candidate `(8, 0)` is accepted and `(8, 1)` is stale. -/
theorem check_cookie_stale_iff_mismatch_witness :
    (∃ v w2 r, sock_gen_cookie 3 demoSocks 0 = some (v, w2) ∧ w2.cookie 0 = some v ∧
      sock_diag_check_cookie linux34 3 demoSocks 0 (8, 1) = some (r, w2) ∧
      (r = -linux34.ESTALE ↔ ((8 : Nat) ≠ v % 2 ^ 32 ∨ (1 : Nat) ≠ (v / 2 ^ 32) % 2 ^ 32)) ∧
      (¬ ((8 : Nat) ≠ v % 2 ^ 32 ∨ (1 : Nat) ≠ (v / 2 ^ 32) % 2 ^ 32) → r = 0)) :=
  check_cookie_stale_iff_mismatch linux34 (by decide) demoSocks 0
    { sk_net := 0, sk_cookie := 0 } rfl 3 (by decide) 8 1 (by decide)

/-! ## Command dispatcher: theorems -/

theorem sock_diag_lock_handler_eq (K : Consts) (E : Env) (family : Nat) (s : State) :
    sock_diag_lock_handler K E family s =
      (slot (resolved K E family s.reg).sock_diag_handlers family,
       { reg := resolved K E family s.reg,
         trace := s.trace ++ lock_handler_events K family s.reg }) := by
  by_cases h : slot s.reg.sock_diag_handlers family = none
  · simp [sock_diag_lock_handler, load_handler, State.emit, mutex_lock, request_module,
      resolved, lock_handler_events, h]
  · simp [sock_diag_lock_handler, load_handler, State.emit, mutex_lock,
      resolved, lock_handler_events, h]

theorem lock_handler_events_no_call (K : Consts) (family : Nat) (r : Registry) :
    ∀ e ∈ lock_handler_events K family r, e.isHandlerCall = false := by
  intro e he
  unfold lock_handler_events at he
  split at he <;> simp at he <;> rcases he with rfl | rfl | rfl | rfl <;> rfl

/-- C10: for a request that is long enough and whose family `f` is in range: if slot `f`
is empty when read under the lock (after the `request_module` attempt),
`__sock_diag_cmd` returns `-ENOENT`, whatever the message type, dump-by-family and
destroy included; if the slot then holds a handler without `destroy` and the message
type is the destroy type, it returns `-EOPNOTSUPP`. In both cases none of the events
appended to the trace is a call of a handler operation. -/
theorem sock_diag_cmd_enoent_eopnotsupp (K : Consts) (E : Env) (nlh : nlmsghdr) (s : State)
    (hlen : K.sizeof_sock_diag_req ≤ nlh.payload_len)
    (hf : nlh.sdiag_family < K.AF_MAX) :
    (slot (resolved K E nlh.sdiag_family s.reg).sock_diag_handlers nlh.sdiag_family = none →
      (__sock_diag_cmd K E nlh s).1 = -K.ENOENT ∧
      ∃ evs, (__sock_diag_cmd K E nlh s).2.trace = s.trace ++ evs ∧
        ∀ e ∈ evs, e.isHandlerCall = false) ∧
    (∀ h, slot (resolved K E nlh.sdiag_family s.reg).sock_diag_handlers nlh.sdiag_family
          = some h →
      (E.handler h).destroy = none →
      nlh.nlmsg_type = K.SOCK_DESTROY_BACKPORT →
      K.SOCK_DESTROY_BACKPORT ≠ K.SOCK_DIAG_BY_FAMILY →
      (__sock_diag_cmd K E nlh s).1 = -K.EOPNOTSUPP ∧
      ∃ evs, (__sock_diag_cmd K E nlh s).2.trace = s.trace ++ evs ∧
        ∀ e ∈ evs, e.isHandlerCall = false) := by
  have h1 : ¬ nlh.payload_len < K.sizeof_sock_diag_req := by omega
  have h2 : ¬ nlh.sdiag_family ≥ K.AF_MAX := by omega
  have hev : ∀ e ∈ lock_handler_events K nlh.sdiag_family s.reg ++
      [Event.mutex_unlock .sock_diag_table_mutex], e.isHandlerCall = false := by
    intro e he
    rcases List.mem_append.1 he with he | he
    · exact lock_handler_events_no_call K _ _ e he
    · simp at he
      subst he
      rfl
  constructor
  · intro hnone
    have heq : __sock_diag_cmd K E nlh s =
        (-K.ENOENT,
         { reg := resolved K E nlh.sdiag_family s.reg,
           trace := s.trace ++ (lock_handler_events K nlh.sdiag_family s.reg ++
             [Event.mutex_unlock .sock_diag_table_mutex]) }) := by
      simp [__sock_diag_cmd, h1, h2, sock_diag_lock_handler_eq, hnone,
        sock_diag_unlock_handler, mutex_unlock, State.emit]
    rw [heq]
    exact ⟨rfl, _, rfl, hev⟩
  · intro h hsome hd hty hne
    have hty2 : ¬ nlh.nlmsg_type = K.SOCK_DIAG_BY_FAMILY := by
      rw [hty]; exact hne
    have heq : __sock_diag_cmd K E nlh s =
        (-K.EOPNOTSUPP,
         { reg := resolved K E nlh.sdiag_family s.reg,
           trace := s.trace ++ (lock_handler_events K nlh.sdiag_family s.reg ++
             [Event.mutex_unlock .sock_diag_table_mutex]) }) := by
      simp [__sock_diag_cmd, h1, h2, sock_diag_lock_handler_eq, hsome, hty2, hd,
        sock_diag_unlock_handler, mutex_unlock, State.emit]
    rw [heq]
    exact ⟨rfl, _, rfl, hev⟩

/-- C10, evaluated: with nothing registered, a dump-by-family and a destroy request for
family 2 both get `-ENOENT`; with handler 4 (family 2, no `destroy`) registered, a
destroy request gets `-EOPNOTSUPP`. -/
theorem sock_diag_cmd_enoent_eopnotsupp_witness :
    (__sock_diag_cmd linux34 demoEnv ⟨20, 2, 2⟩ emptyState).1 = -2 ∧
    (__sock_diag_cmd linux34 demoEnv ⟨21, 2, 2⟩ emptyState).1 = -2 ∧
    (__sock_diag_cmd linux34 demoEnv ⟨21, 2, 2⟩
      (sock_diag_register linux34 demoEnv 4 emptyState).2).1 = -95 :=
  ⟨((sock_diag_cmd_enoent_eopnotsupp linux34 demoEnv ⟨20, 2, 2⟩ emptyState
      (by decide) (by decide)).1 (by decide)).1,
   ((sock_diag_cmd_enoent_eopnotsupp linux34 demoEnv ⟨21, 2, 2⟩ emptyState
      (by decide) (by decide)).1 (by decide)).1,
   ((sock_diag_cmd_enoent_eopnotsupp linux34 demoEnv ⟨21, 2, 2⟩
      (sock_diag_register linux34 demoEnv 4 emptyState).2
      (by decide) (by decide)).2 4 (by decide) rfl (by decide) (by decide)).1⟩

/-! ## Cookie uniqueness -/

theorem setCount_set (ns : Nat) (l : List sock) (sk : Nat) (s b : sock)
    (hs : l[sk]? = some s) (h0 : s.sk_cookie = 0) :
    setCount ns (l.set sk b) =
      setCount ns l + (if b.sk_net = ns ∧ b.sk_cookie ≠ 0 then 1 else 0) := by
  obtain ⟨hlt, hget⟩ := List.getElem?_eq_some_iff.1 hs
  unfold setCount
  rw [List.countP_set _ _ _ _ hlt, hget]
  simp [h0]

theorem draw_preserves_inv (c0 : Nat) (w : SkState) (sk : Nat) (s : sock)
    (hs : w.socks[sk]? = some s) (h0 : s.sk_cookie = 0)
    (hinv : CookieInv s.sk_net c0 w) : CookieInv s.sk_net c0 (w.draw sk s) := by
  obtain ⟨hn, d, hc, hd, hk, hinj⟩ := hinv
  obtain ⟨hlt, hget⟩ := List.getElem?_eq_some_iff.1 hs
  have hsocks : (w.draw sk s).socks =
      w.socks.set sk { s with sk_cookie := atomic64_inc_return (w.cookie_gen s.sk_net) } := by
    simp [SkState.draw, atomic64_cmpxchg, h0]
  have hgen : (w.draw sk s).cookie_gen s.sk_net =
      atomic64_inc_return (w.cookie_gen s.sk_net) := by
    simp [SkState.draw]
  generalize hr : atomic64_inc_return (w.cookie_gen s.sk_net) = r at hsocks hgen
  have hrM : r = (w.cookie_gen s.sk_net + 1) % 2 ^ 64 := by
    rw [← hr]; rfl
  have hK1 : setCount s.sk_net w.socks + 1 ≤ w.socks.length := by
    have h1 := setCount_set s.sk_net w.socks sk s { s with sk_cookie := 1 } hs h0
    have hle : setCount s.sk_net (w.socks.set sk { s with sk_cookie := 1 }) ≤
        (w.socks.set sk { s with sk_cookie := 1 }).length := List.countP_le_length _
    simp at h1 hle
    omega
  have hK : setCount s.sk_net (w.draw sk s).socks =
      setCount s.sk_net w.socks + (if r ≠ 0 then 1 else 0) := by
    rw [hsocks, setCount_set s.sk_net w.socks sk s _ hs h0]
    simp
  have hdM : d < 2 ^ 64 := by
    split_ifs at hd <;> omega
  have hrd : r = (c0 + (d + 1)) % 2 ^ 64 := by omega
  refine ⟨by rw [hsocks]; simpa using hn, d + 1, ?_, ?_, ?_, ?_⟩
  · rw [hgen]; omega
  · rw [hK]
    split_ifs at hd ⊢ <;> omega
  · intro i si hi hnet hne
    by_cases hisk : sk = i
    · subst hisk
      rw [hsocks, List.getElem?_set_self hlt] at hi
      have : si.sk_cookie = r := by rw [← Option.some.inj hi]
      exact ⟨d + 1, by omega, le_refl _, by rw [this, hrd]⟩
    · rw [hsocks, List.getElem?_set_ne hisk] at hi
      obtain ⟨k, hk1, hk2, hk3⟩ := hk i si hi hnet hne
      exact ⟨k, hk1, by omega, hk3⟩
  · intro i j si sj hi hj hij hni hnj hci hcj
    by_cases hisk : sk = i
    · subst hisk
      rw [hsocks, List.getElem?_set_self hlt] at hi
      rw [hsocks, List.getElem?_set_ne hij] at hj
      have hri : si.sk_cookie = r := by rw [← Option.some.inj hi]
      obtain ⟨k, hk1, hk2, hk3⟩ := hk j sj hj hnj hcj
      rw [hri, hk3, hrd]
      omega
    · by_cases hjsk : sk = j
      · subst hjsk
        rw [hsocks, List.getElem?_set_self hlt] at hj
        rw [hsocks, List.getElem?_set_ne hisk] at hi
        have hrj : sj.sk_cookie = r := by rw [← Option.some.inj hj]
        obtain ⟨k, hk1, hk2, hk3⟩ := hk i si hi hni hci
        rw [hrj, hk3, hrd]
        omega
      · rw [hsocks, List.getElem?_set_ne hisk] at hi
        rw [hsocks, List.getElem?_set_ne hjsk] at hj
        exact hinj i j si sj hi hj hij hni hnj hci hcj

theorem draw_preserves_inv_other (ns c0 : Nat) (w : SkState) (sk : Nat) (s : sock)
    (hs : w.socks[sk]? = some s) (h0 : s.sk_cookie = 0) (hns : s.sk_net ≠ ns)
    (hinv : CookieInv ns c0 w) : CookieInv ns c0 (w.draw sk s) := by
  obtain ⟨hn, d, hc, hd, hk, hinj⟩ := hinv
  obtain ⟨hlt, hget⟩ := List.getElem?_eq_some_iff.1 hs
  have hsocks : (w.draw sk s).socks =
      w.socks.set sk { s with sk_cookie := atomic64_inc_return (w.cookie_gen s.sk_net) } := by
    simp [SkState.draw, atomic64_cmpxchg, h0]
  have hgen : (w.draw sk s).cookie_gen ns = w.cookie_gen ns := by
    simp [SkState.draw, Function.update, Ne.symm hns]
  have hK : setCount ns (w.draw sk s).socks = setCount ns w.socks := by
    rw [hsocks, setCount_set ns w.socks sk s _ hs h0]
    simp [hns]
  refine ⟨by rw [hsocks]; simpa using hn, d, ?_, ?_, ?_, ?_⟩
  · rw [hgen]; exact hc
  · rw [hK]; exact hd
  · intro i si hi hnet hne
    by_cases hisk : sk = i
    · subst hisk
      rw [hsocks, List.getElem?_set_self hlt] at hi
      exact absurd (by rw [← Option.some.inj hi]) (hnet ▸ hns : s.sk_net ≠ si.sk_net)
    · rw [hsocks, List.getElem?_set_ne hisk] at hi
      exact hk i si hi hnet hne
  · intro i j si sj hi hj hij hni hnj hci hcj
    by_cases hisk : sk = i
    · subst hisk
      rw [hsocks, List.getElem?_set_self hlt] at hi
      exact absurd (by rw [← Option.some.inj hi]) (hni ▸ hns : s.sk_net ≠ si.sk_net)
    · by_cases hjsk : sk = j
      · subst hjsk
        rw [hsocks, List.getElem?_set_self hlt] at hj
        exact absurd (by rw [← Option.some.inj hj]) (hnj ▸ hns : s.sk_net ≠ sj.sk_net)
      · rw [hsocks, List.getElem?_set_ne hisk] at hi
        rw [hsocks, List.getElem?_set_ne hjsk] at hj
        exact hinj i j si sj hi hj hij hni hnj hci hcj

theorem sock_gen_cookie_preserves_inv (ns c0 fuel : Nat) :
    ∀ (w : SkState) (sk v : Nat) (w2 : SkState), CookieInv ns c0 w →
      sock_gen_cookie fuel w sk = some (v, w2) → CookieInv ns c0 w2 := by
  induction fuel with
  | zero =>
    intro w sk v w2 _ h
    simp [sock_gen_cookie] at h
  | succ n ih =>
    intro w sk v w2 hinv h
    cases hs : w.socks[sk]? with
    | none => simp [sock_gen_cookie, hs] at h
    | some s =>
      by_cases hc : s.sk_cookie ≠ 0
      · rw [sock_gen_cookie_of_set n w sk s hs hc] at h
        obtain ⟨_, rfl⟩ := Prod.mk.inj (Option.some.inj h)
        exact hinv
      · have h0 : s.sk_cookie = 0 := by omega
        rw [sock_gen_cookie_of_unset n w sk s hs h0] at h
        refine ih _ sk v w2 ?_ h
        by_cases hns : s.sk_net = ns
        · subst hns
          exact draw_preserves_inv c0 w sk s hs h0 hinv
        · exact draw_preserves_inv_other ns c0 w sk s hs h0 hns hinv

theorem cookieOp_run_preserves_inv (K : Consts) (ns c0 fuel : Nat) (w w2 : SkState)
    (op : CookieOp) (hinv : CookieInv ns c0 w) (h : op.run K fuel w = some w2) :
    CookieInv ns c0 w2 := by
  cases op with
  | gen sk =>
    simp only [CookieOp.run, Option.map_eq_some'] at h
    obtain ⟨⟨v, w3⟩, hg, rfl⟩ := h
    exact sock_gen_cookie_preserves_inv ns c0 fuel w sk v w3 hinv hg
  | check sk cookie =>
    simp only [CookieOp.run, Option.map_eq_some'] at h
    obtain ⟨⟨r, w3⟩, hg, rfl⟩ := h
    unfold sock_diag_check_cookie at hg
    split at hg
    · obtain ⟨_, rfl⟩ := Prod.mk.inj (Option.some.inj hg)
      exact hinv
    · cases hgen : sock_gen_cookie fuel w sk with
      | none => simp [hgen] at hg
      | some p =>
        obtain ⟨v, w4⟩ := p
        simp only [hgen] at hg
        have h4 := sock_gen_cookie_preserves_inv ns c0 fuel w sk v w4 hinv hgen
        split at hg
        · obtain ⟨_, rfl⟩ := Prod.mk.inj (Option.some.inj hg)
          exact h4
        · obtain ⟨_, rfl⟩ := Prod.mk.inj (Option.some.inj hg)
          exact h4
  | save sk =>
    simp only [CookieOp.run, Option.map_eq_some'] at h
    obtain ⟨⟨c, w3⟩, hg, rfl⟩ := h
    unfold sock_diag_save_cookie at hg
    cases hgen : sock_gen_cookie fuel w sk with
    | none => simp [hgen] at hg
    | some p =>
      obtain ⟨v, w4⟩ := p
      simp only [hgen] at hg
      obtain ⟨_, rfl⟩ := Prod.mk.inj (Option.some.inj hg)
      exact sock_gen_cookie_preserves_inv ns c0 fuel w sk v w4 hinv hgen

theorem cookieInv_init (ns : Nat) (w0 : SkState) (hn : w0.socks.length < 2 ^ 64)
    (hinit : ∀ s ∈ w0.socks, s.sk_net = ns → s.sk_cookie = 0) :
    CookieInv ns (w0.cookie_gen ns) w0 := by
  refine ⟨hn, 0, rfl, Nat.zero_le _, ?_, ?_⟩
  · intro i s hi hnet hne
    exact absurd (hinit s (List.getElem?_mem hi) hnet) hne
  · intro i j si sj hi _ _ hni _ hci
    exact absurd (hinit si (List.getElem?_mem hi) hni) hci

theorem cookieInv_of_reachable (K : Consts) (ns : Nat) (w0 w : SkState)
    (hn : w0.socks.length < 2 ^ 64)
    (hinit : ∀ s ∈ w0.socks, s.sk_net = ns → s.sk_cookie = 0)
    (hreach : CookieReachable K w0 w) : CookieInv ns (w0.cookie_gen ns) w := by
  induction hreach with
  | init => exact cookieInv_init ns w0 hn hinit
  | step _ hstep ih =>
    obtain ⟨fuel, op, hrun⟩ := hstep
    exact cookieOp_run_preserves_inv K ns _ fuel _ _ op ih hrun

/-- C5: start from a state with fewer than `2 ^ 64` sockets in which every socket of
namespace `ns` has an unset cookie (the counter of `ns` holding any value). In every
state reached by a sequence of `sock_gen_cookie` / `sock_diag_check_cookie` /
`sock_diag_save_cookie` calls, on sockets of `ns` or of other namespaces, two distinct
sockets of `ns` whose cookies are both non-zero hold different cookies. -/
theorem cookies_unique_in_namespace (K : Consts) (ns : Nat) (w0 w : SkState)
    (hn : w0.socks.length < 2 ^ 64)
    (hinit : ∀ s ∈ w0.socks, s.sk_net = ns → s.sk_cookie = 0)
    (hreach : CookieReachable K w0 w)
    (i j : Nat) (si sj : sock) (hi : w.socks[i]? = some si) (hj : w.socks[j]? = some sj)
    (hij : i ≠ j) (hni : si.sk_net = ns) (hnj : sj.sk_net = ns)
    (hci : si.sk_cookie ≠ 0) (hcj : sj.sk_cookie ≠ 0) :
    si.sk_cookie ≠ sj.sk_cookie := by
  obtain ⟨_, d, _, _, _, hinj⟩ := cookieInv_of_reachable K ns w0 w hn hinit hreach
  exact hinj i j si sj hi hj hij hni hnj hci hcj

/-- C5, evaluated: after `sock_gen_cookie` on socket 0 and then on socket 1 of
`freshSocks`, the two sockets hold the distinct cookies 1 and 2. -/
theorem cookies_unique_in_namespace_witness :
    ∃ si sj, freshSocksDrawn.socks[0]? = some si ∧ freshSocksDrawn.socks[1]? = some sj ∧
      si.sk_cookie = 1 ∧ sj.sk_cookie = 2 ∧ si.sk_cookie ≠ sj.sk_cookie :=
  ⟨{ sk_net := 0, sk_cookie := 1 }, { sk_net := 0, sk_cookie := 2 }, rfl, rfl, rfl, rfl,
    cookies_unique_in_namespace linux34 0 freshSocks freshSocksDrawn (by decide) (by decide)
      (.step (.step .init ⟨2, .gen 0, rfl⟩) ⟨2, .gen 1, rfl⟩)
      0 1 { sk_net := 0, sk_cookie := 1 } { sk_net := 0, sk_cookie := 2 } rfl rfl
      (by decide) rfl rfl (by decide) (by decide)⟩

/-! ## Dispatch path: what is returned and what is traced -/

theorem sock_diag_cmd_early (K : Consts) (E : Env) (nlh : nlmsghdr) (s : State)
    (h : nlh.payload_len < K.sizeof_sock_diag_req ∨ nlh.sdiag_family ≥ K.AF_MAX) :
    __sock_diag_cmd K E nlh s = (-K.EINVAL, s) := by
  unfold __sock_diag_cmd
  by_cases h1 : nlh.payload_len < K.sizeof_sock_diag_req
  · rw [if_pos h1]
  · rw [if_neg h1]
    have h2 : nlh.sdiag_family ≥ K.AF_MAX := h.resolve_left h1
    rw [if_pos h2]

theorem sock_diag_cmd_eq (K : Consts) (E : Env) (nlh : nlmsghdr) (s : State)
    (h1 : ¬ nlh.payload_len < K.sizeof_sock_diag_req)
    (h2 : ¬ nlh.sdiag_family ≥ K.AF_MAX) :
    __sock_diag_cmd K E nlh s =
      (cmd_result K E nlh
        (slot (resolved K E nlh.sdiag_family s.reg).sock_diag_handlers nlh.sdiag_family),
       { reg := resolved K E nlh.sdiag_family s.reg,
         trace := s.trace ++
           (lock_handler_events K nlh.sdiag_family s.reg ++
            cmd_call_events K E nlh
              (slot (resolved K E nlh.sdiag_family s.reg).sock_diag_handlers
                nlh.sdiag_family) ++
            [Event.mutex_unlock .sock_diag_table_mutex]) }) := by
  unfold __sock_diag_cmd
  rw [if_neg h1, if_neg h2, sock_diag_lock_handler_eq]
  cases hh : slot (resolved K E nlh.sdiag_family s.reg).sock_diag_handlers
      nlh.sdiag_family with
  | none =>
    simp [cmd_result, cmd_call_events, sock_diag_unlock_handler, mutex_unlock, State.emit]
  | some h =>
    by_cases ht : nlh.nlmsg_type = K.SOCK_DIAG_BY_FAMILY
    · simp [cmd_result, cmd_call_events, sock_diag_unlock_handler, mutex_unlock,
        State.emit, ht]
    · by_cases hd : nlh.nlmsg_type = K.SOCK_DESTROY_BACKPORT
      · have hne : ¬ K.SOCK_DESTROY_BACKPORT = K.SOCK_DIAG_BY_FAMILY := by
          rw [← hd]; exact ht
        cases hdes : (E.handler h).destroy with
        | none =>
          simp [cmd_result, cmd_call_events, sock_diag_unlock_handler, mutex_unlock,
            State.emit, hne, hd, hdes]
        | some d =>
          simp [cmd_result, cmd_call_events, sock_diag_unlock_handler, mutex_unlock,
            State.emit, hne, hd, hdes]
      · simp [cmd_result, cmd_call_events, sock_diag_unlock_handler, mutex_unlock,
          State.emit, ht, hd]

theorem sock_diag_cmd_state (K : Consts) (E : Env) (nlh : nlmsghdr) (s : State) :
    (__sock_diag_cmd K E nlh s).2 =
      { reg := cmd_reg K E nlh s.reg, trace := s.trace ++ cmd_events K E nlh s.reg } := by
  by_cases h : nlh.payload_len < K.sizeof_sock_diag_req ∨ nlh.sdiag_family ≥ K.AF_MAX
  · rw [sock_diag_cmd_early K E nlh s h]
    simp [cmd_reg, cmd_events, h]
  · have h1 : ¬ nlh.payload_len < K.sizeof_sock_diag_req := fun h1 => h (Or.inl h1)
    have h2 : ¬ nlh.sdiag_family ≥ K.AF_MAX := fun h2 => h (Or.inr h2)
    rw [sock_diag_cmd_eq K E nlh s h1 h2]
    simp only [cmd_reg, cmd_events, if_neg h]

theorem sock_diag_rcv_msg_legacy (K : Consts) (E : Env) (nlh : nlmsghdr) (s : State)
    (hl : is_legacy K nlh) :
    sock_diag_rcv_msg K E nlh s =
      ((match (resolved_compat K E s.reg).inet_rcv_compat with
        | some fn => E.compat fn nlh
        | none => -K.EOPNOTSUPP),
       { reg := resolved_compat K E s.reg,
         trace := s.trace ++ compat_events K E nlh s.reg }) := by
  unfold is_legacy at hl
  unfold sock_diag_rcv_msg
  rw [if_pos hl]
  by_cases hc : s.reg.inet_rcv_compat = none
  · cases hr : (E.request_module K.PF_NETLINK K.NETLINK_SOCK_DIAG K.AF_INET
        s.reg).inet_rcv_compat with
    | none =>
      simp [load_compat, State.emit, mutex_lock, mutex_unlock, request_module,
        resolved_compat, compat_events, hc, hr]
    | some fn =>
      simp [load_compat, State.emit, mutex_lock, mutex_unlock, request_module,
        resolved_compat, compat_events, hc, hr]
  · cases hr : s.reg.inet_rcv_compat with
    | none => exact absurd hr hc
    | some fn =>
      simp [load_compat, State.emit, mutex_lock, mutex_unlock,
        resolved_compat, compat_events, hr]

theorem sock_diag_rcv_msg_state (K : Consts) (E : Env) (nlh : nlmsghdr) (s : State) :
    (sock_diag_rcv_msg K E nlh s).2 =
      { reg := rcv_msg_reg K E nlh s.reg,
        trace := s.trace ++ rcv_msg_events K E nlh s.reg } := by
  by_cases hl : is_legacy K nlh
  · rw [sock_diag_rcv_msg_legacy K E nlh s hl]
    simp [rcv_msg_reg, rcv_msg_events, hl]
  · by_cases hc : is_cmd K nlh
    · have h : sock_diag_rcv_msg K E nlh s = __sock_diag_cmd K E nlh s := by
        unfold is_legacy at hl
        unfold is_cmd at hc
        unfold sock_diag_rcv_msg
        rw [if_neg hl, if_pos hc]
      rw [h, sock_diag_cmd_state]
      simp [rcv_msg_reg, rcv_msg_events, hl, hc]
    · have h : sock_diag_rcv_msg K E nlh s = (-K.EINVAL, s) := by
        unfold is_legacy at hl
        unfold is_cmd at hc
        unfold sock_diag_rcv_msg
        rw [if_neg hl, if_neg hc]
      rw [h]
      simp [rcv_msg_reg, rcv_msg_events, hl, hc]

/-! ## Reading a trace: lemmas -/

theorem heldFrom_append (m : Mutex) (h : Bool) (a b : List Event) :
    heldFrom m h (a ++ b) = heldFrom m (heldFrom m h a) b := by
  simp [heldFrom, List.foldl_append]

theorem held_append (m : Mutex) (a b : List Event) :
    held m (a ++ b) = heldFrom m (held m a) b := by
  simp [held, heldFrom_append]

theorem lockedAt_append (m : Mutex) (p : Event → Bool) (want : Bool) :
    ∀ (a b : List Event) (h : Bool),
      lockedAt m p want h (a ++ b) =
        (lockedAt m p want h a && lockedAt m p want (heldFrom m h a) b) := by
  intro a
  induction a with
  | nil => intro b h; simp [lockedAt, heldFrom]
  | cons e a ih =>
    intro b h
    simp [lockedAt, heldFrom, ih, Bool.and_assoc]

theorem lockedAt_spec (m : Mutex) (p : Event → Bool) (want : Bool) (tr : List Event)
    (h : Bool) (hl : lockedAt m p want h tr = true) (pre : List Event) (e : Event)
    (post : List Event) (heq : tr = pre ++ e :: post) (hp : p e = true) :
    heldFrom m h pre = want := by
  subst heq
  rw [lockedAt_append] at hl
  simp [lockedAt, hp] at hl
  exact hl.2.1

theorem cmd_call_events_shape (K : Consts) (E : Env) (nlh : nlmsghdr) (o : Option Nat) :
    cmd_call_events K E nlh o = [] ∨
    (∃ h, o = some h ∧ cmd_call_events K E nlh o = [Event.dump h nlh]) ∨
    (∃ h, o = some h ∧ cmd_call_events K E nlh o = [Event.destroy h nlh]) := by
  cases o with
  | none => left; rfl
  | some h =>
    by_cases ht : nlh.nlmsg_type = K.SOCK_DIAG_BY_FAMILY
    · right; left
      exact ⟨h, rfl, by simp [cmd_call_events, ht]⟩
    · by_cases hd : nlh.nlmsg_type = K.SOCK_DESTROY_BACKPORT
      · have hne : ¬ K.SOCK_DESTROY_BACKPORT = K.SOCK_DIAG_BY_FAMILY := by
          rw [← hd]; exact ht
        cases hdes : (E.handler h).destroy with
        | none => left; simp [cmd_call_events, hne, hd, hdes]
        | some d =>
          right; right
          exact ⟨h, rfl, by simp [cmd_call_events, hne, hd, hdes]⟩
      · left; simp [cmd_call_events, ht, hd]

theorem cmd_events_scan (K : Consts) (E : Env) (nlh : nlmsghdr) (r : Registry) :
    lockedAt .sock_diag_table_mutex Event.isRequestModule false false
        (cmd_events K E nlh r) = true ∧
    lockedAt .sock_diag_table_mutex Event.isHandlerCall true false
        (cmd_events K E nlh r) = true ∧
    heldFrom .sock_diag_table_mutex false (cmd_events K E nlh r) = false ∧
    lockedAt .sock_diag_mutex Event.isRequestModule true true
        (cmd_events K E nlh r) = true ∧
    heldFrom .sock_diag_mutex true (cmd_events K E nlh r) = true ∧
    (cmd_events K E nlh r).count (Event.mutex_lock .sock_diag_table_mutex) ≤ 1 := by
  unfold cmd_events lock_handler_events
  by_cases he : nlh.payload_len < K.sizeof_sock_diag_req ∨ nlh.sdiag_family ≥ K.AF_MAX
  · simp [he, lockedAt, heldFrom]
  · rw [if_neg he]
    rcases cmd_call_events_shape K E nlh
        (slot (resolved K E nlh.sdiag_family r).sock_diag_handlers nlh.sdiag_family)
      with hc | ⟨h, _, hc⟩ | ⟨h, _, hc⟩ <;>
    rw [hc] <;>
    by_cases hs : slot r.sock_diag_handlers nlh.sdiag_family = none <;>
    simp [hs, lockedAt, heldFrom, lockStep, Event.isRequestModule,
      Event.isHandlerCall, List.count_cons]

theorem compat_events_scan (K : Consts) (E : Env) (nlh : nlmsghdr) (r : Registry) :
    lockedAt .sock_diag_table_mutex Event.isRequestModule false false
        (compat_events K E nlh r) = true ∧
    lockedAt .sock_diag_table_mutex Event.isHandlerCall true false
        (compat_events K E nlh r) = true ∧
    heldFrom .sock_diag_table_mutex false (compat_events K E nlh r) = false ∧
    lockedAt .sock_diag_mutex Event.isRequestModule true true
        (compat_events K E nlh r) = true ∧
    heldFrom .sock_diag_mutex true (compat_events K E nlh r) = true ∧
    (compat_events K E nlh r).count (Event.mutex_lock .sock_diag_table_mutex) ≤ 1 := by
  unfold compat_events
  cases (resolved_compat K E r).inet_rcv_compat <;>
  by_cases hs : r.inet_rcv_compat = none <;>
  simp [hs, lockedAt, heldFrom, lockStep, Event.isRequestModule,
    Event.isHandlerCall, List.count_cons]

theorem rcv_msg_events_scan (K : Consts) (E : Env) (nlh : nlmsghdr) (r : Registry) :
    lockedAt .sock_diag_table_mutex Event.isRequestModule false false
        (rcv_msg_events K E nlh r) = true ∧
    lockedAt .sock_diag_table_mutex Event.isHandlerCall true false
        (rcv_msg_events K E nlh r) = true ∧
    heldFrom .sock_diag_table_mutex false (rcv_msg_events K E nlh r) = false ∧
    lockedAt .sock_diag_mutex Event.isRequestModule true true
        (rcv_msg_events K E nlh r) = true ∧
    heldFrom .sock_diag_mutex true (rcv_msg_events K E nlh r) = true ∧
    (rcv_msg_events K E nlh r).count (Event.mutex_lock .sock_diag_table_mutex) ≤ 1 := by
  unfold rcv_msg_events
  by_cases hl : is_legacy K nlh
  · rw [if_pos hl]; exact compat_events_scan K E nlh r
  · rw [if_neg hl]
    by_cases hc : is_cmd K nlh
    · rw [if_pos hc]; exact cmd_events_scan K E nlh r
    · rw [if_neg hc]; simp [lockedAt, heldFrom]

theorem rcv_msg_events_no_store (K : Consts) (E : Env) (nlh : nlmsghdr) (r : Registry) :
    ∀ e ∈ rcv_msg_events K E nlh r, e.isStore = false := by
  intro e he
  unfold rcv_msg_events at he
  by_cases hl : is_legacy K nlh
  · rw [if_pos hl] at he
    unfold compat_events at he
    cases hcmp : (resolved_compat K E r).inet_rcv_compat <;>
    by_cases hs : r.inet_rcv_compat = none <;>
    simp [hs, hcmp] at he <;>
    rcases he with rfl | rfl | rfl | rfl | rfl | rfl <;> rfl
  · rw [if_neg hl] at he
    by_cases hc : is_cmd K nlh
    · rw [if_pos hc] at he
      unfold cmd_events lock_handler_events at he
      by_cases hearly : nlh.payload_len < K.sizeof_sock_diag_req ∨
          nlh.sdiag_family ≥ K.AF_MAX
      · simp [hearly] at he
      · rw [if_neg hearly] at he
        rcases cmd_call_events_shape K E nlh
            (slot (resolved K E nlh.sdiag_family r).sock_diag_handlers nlh.sdiag_family)
          with hcall | ⟨h, _, hcall⟩ | ⟨h, _, hcall⟩ <;>
        rw [hcall] at he <;>
        by_cases hs : slot r.sock_diag_handlers nlh.sdiag_family = none <;>
        simp [hs] at he <;>
        rcases he with rfl | rfl | rfl | rfl | rfl | rfl <;> rfl
    · rw [if_neg hc] at he
      simp at he

theorem rcv_msg_events_index (K : Consts) (E : Env) (nlh : nlmsghdr) (r : Registry) :
    ∀ e ∈ rcv_msg_events K E nlh r, ∀ i, e.tableIndex = some i → i < K.AF_MAX := by
  intro e he i hi
  unfold rcv_msg_events at he
  by_cases hl : is_legacy K nlh
  · rw [if_pos hl] at he
    unfold compat_events at he
    cases hcmp : (resolved_compat K E r).inet_rcv_compat <;>
    by_cases hs : r.inet_rcv_compat = none <;>
    simp [hs, hcmp] at he <;>
    rcases he with rfl | rfl | rfl | rfl | rfl | rfl <;>
    simp [Event.tableIndex] at hi
  · rw [if_neg hl] at he
    by_cases hc : is_cmd K nlh
    · rw [if_pos hc] at he
      unfold cmd_events lock_handler_events at he
      by_cases hearly : nlh.payload_len < K.sizeof_sock_diag_req ∨
          nlh.sdiag_family ≥ K.AF_MAX
      · simp [hearly] at he
      · rw [if_neg hearly] at he
        have hf : nlh.sdiag_family < K.AF_MAX := by
          by_contra hcon
          exact hearly (Or.inr (by omega))
        rcases cmd_call_events_shape K E nlh
            (slot (resolved K E nlh.sdiag_family r).sock_diag_handlers nlh.sdiag_family)
          with hcall | ⟨h, _, hcall⟩ | ⟨h, _, hcall⟩ <;>
        rw [hcall] at he <;>
        by_cases hs : slot r.sock_diag_handlers nlh.sdiag_family = none <;>
        simp [hs] at he <;>
        rcases he with rfl | rfl | rfl | rfl | rfl | rfl <;>
        simp [Event.tableIndex] at hi <;>
        omega
    · rw [if_neg hc] at he
      simp at he

theorem cmd_events_index (K : Consts) (E : Env) (nlh : nlmsghdr) (r : Registry) :
    ∀ e ∈ cmd_events K E nlh r, ∀ i, e.tableIndex = some i → i < K.AF_MAX := by
  intro e he i hi
  unfold cmd_events lock_handler_events at he
  by_cases hearly : nlh.payload_len < K.sizeof_sock_diag_req ∨ nlh.sdiag_family ≥ K.AF_MAX
  · simp [hearly] at he
  · rw [if_neg hearly] at he
    have hf : nlh.sdiag_family < K.AF_MAX := by
      by_contra hcon
      exact hearly (Or.inr (by omega))
    rcases cmd_call_events_shape K E nlh
        (slot (resolved K E nlh.sdiag_family r).sock_diag_handlers nlh.sdiag_family)
      with hcall | ⟨h, _, hcall⟩ | ⟨h, _, hcall⟩ <;>
    rw [hcall] at he <;>
    by_cases hs : slot r.sock_diag_handlers nlh.sdiag_family = none <;>
    simp [hs] at he <;>
    rcases he with rfl | rfl | rfl | rfl | rfl | rfl <;>
    simp [Event.tableIndex] at hi <;>
    omega

/-! ## Dispatcher and compat slot: further theorems -/

/-- C11: for a message whose type is none of the two legacy types, dump-by-family or
destroy, `sock_diag_rcv_msg` returns `-EINVAL` and the state is the one before the call:
nothing is appended to the trace, so no mutex was taken, neither the handler table nor
the compat slot was read, no `request_module` was issued and no handler was called. -/
theorem sock_diag_rcv_msg_unknown_type (K : Consts) (E : Env) (nlh : nlmsghdr) (s : State)
    (h1 : nlh.nlmsg_type ≠ K.TCPDIAG_GETSOCK) (h2 : nlh.nlmsg_type ≠ K.DCCPDIAG_GETSOCK)
    (h3 : nlh.nlmsg_type ≠ K.SOCK_DIAG_BY_FAMILY)
    (h4 : nlh.nlmsg_type ≠ K.SOCK_DESTROY_BACKPORT) :
    sock_diag_rcv_msg K E nlh s = (-K.EINVAL, s) := by
  have hl : ¬ (nlh.nlmsg_type = K.TCPDIAG_GETSOCK ∨ nlh.nlmsg_type = K.DCCPDIAG_GETSOCK) := by
    rintro (h | h)
    · exact h1 h
    · exact h2 h
  have hc : ¬ (nlh.nlmsg_type = K.SOCK_DIAG_BY_FAMILY ∨
      nlh.nlmsg_type = K.SOCK_DESTROY_BACKPORT) := by
    rintro (h | h)
    · exact h3 h
    · exact h4 h
  unfold sock_diag_rcv_msg
  rw [if_neg hl, if_neg hc]

/-- C11, evaluated on message type 9999 against a registry that holds a handler. -/
theorem sock_diag_rcv_msg_unknown_type_witness :
    sock_diag_rcv_msg linux34 demoEnv ⟨9999, 2, 2⟩
        (sock_diag_register linux34 demoEnv 5 emptyState).2
      = (-22, (sock_diag_register linux34 demoEnv 5 emptyState).2) :=
  sock_diag_rcv_msg_unknown_type linux34 demoEnv ⟨9999, 2, 2⟩ _
    (by decide) (by decide) (by decide) (by decide)

/-- C12: `__sock_diag_cmd` returns `-EINVAL` with the state untouched (nothing traced:
no table access, no `request_module`, no mutex) when the payload is shorter than the
request header or the family is `>= AF_MAX`; and every slot of the handler table that
`__sock_diag_cmd`, or `sock_diag_rcv_msg` as a whole, reads or writes has an index below
`AF_MAX`. -/
theorem sock_diag_cmd_rejects_before_lookup (K : Consts) (E : Env) (nlh : nlmsghdr)
    (s : State) :
    (nlh.payload_len < K.sizeof_sock_diag_req → __sock_diag_cmd K E nlh s = (-K.EINVAL, s)) ∧
    (nlh.sdiag_family ≥ K.AF_MAX → __sock_diag_cmd K E nlh s = (-K.EINVAL, s)) ∧
    (∃ evs, (__sock_diag_cmd K E nlh s).2.trace = s.trace ++ evs ∧
      ∀ e ∈ evs, ∀ i, e.tableIndex = some i → i < K.AF_MAX) ∧
    (∃ evs, (sock_diag_rcv_msg K E nlh s).2.trace = s.trace ++ evs ∧
      ∀ e ∈ evs, ∀ i, e.tableIndex = some i → i < K.AF_MAX) := by
  refine ⟨fun h => sock_diag_cmd_early K E nlh s (Or.inl h),
    fun h => sock_diag_cmd_early K E nlh s (Or.inr h), ?_, ?_⟩
  · exact ⟨cmd_events K E nlh s.reg, by rw [sock_diag_cmd_state],
      cmd_events_index K E nlh s.reg⟩
  · exact ⟨rcv_msg_events K E nlh s.reg, by rw [sock_diag_rcv_msg_state],
      rcv_msg_events_index K E nlh s.reg⟩

/-- C12, evaluated: a one-byte payload and family 40 = `AF_MAX` are both rejected
with `-EINVAL` and leave the state as it was. -/
theorem sock_diag_cmd_rejects_before_lookup_witness :
    __sock_diag_cmd linux34 demoEnv ⟨20, 1, 2⟩ emptyState = (-22, emptyState) ∧
    __sock_diag_cmd linux34 demoEnv ⟨21, 2, 40⟩ emptyState = (-22, emptyState) :=
  ⟨(sock_diag_cmd_rejects_before_lookup linux34 demoEnv ⟨20, 1, 2⟩ emptyState).1
      (by decide),
   (sock_diag_cmd_rejects_before_lookup linux34 demoEnv ⟨21, 2, 40⟩ emptyState).2.1
      (by decide)⟩

/-- C16: `sock_diag_register_inet_compat(fn)` leaves the compat slot holding `fn`
whatever it held; `sock_diag_unregister_inet_compat(g)` leaves it empty for every `g`
and every previous content; neither changes the handler table. -/
theorem inet_compat_register_unregister (fn g : Nat) (s : State) :
    (sock_diag_register_inet_compat fn s).reg = { s.reg with inet_rcv_compat := some fn } ∧
    (sock_diag_unregister_inet_compat g s).reg = { s.reg with inet_rcv_compat := none } ∧
    (sock_diag_register_inet_compat fn s).reg.sock_diag_handlers
      = s.reg.sock_diag_handlers ∧
    (sock_diag_unregister_inet_compat g s).reg.sock_diag_handlers
      = s.reg.sock_diag_handlers ∧
    (sock_diag_unregister_inet_compat g (sock_diag_register_inet_compat fn s)).reg
      = { s.reg with inet_rcv_compat := none } :=
  ⟨rfl, rfl, rfl, rfl, rfl⟩

/-- C16, evaluated: function 9 replaces function 8 without error, and unregistering
with function 3 empties the slot. -/
theorem inet_compat_register_unregister_witness :
    (sock_diag_register_inet_compat 9
        (sock_diag_register_inet_compat 8 emptyState)).reg.inet_rcv_compat = some 9 ∧
    (sock_diag_unregister_inet_compat 3
        (sock_diag_register_inet_compat 9 emptyState)).reg.inet_rcv_compat = none ∧
    (sock_diag_unregister_inet_compat 3 emptyState).reg.inet_rcv_compat = none :=
  ⟨congrArg Registry.inet_rcv_compat
      (inet_compat_register_unregister 9 3 (sock_diag_register_inet_compat 8 emptyState)).1,
   congrArg Registry.inet_rcv_compat (inet_compat_register_unregister 9 3 emptyState).2.2.2.2,
   congrArg Registry.inet_rcv_compat (inet_compat_register_unregister 9 3 emptyState).2.1⟩

/-- C17: for a dump-by-family request that is long enough and whose family `f` is in
range, with handler `h` in slot `f` when the slot is read under the lock,
`__sock_diag_cmd` returns exactly what the `dump` of `h` returns for the request; the events
it appends are those of `sock_diag_lock_handler`, one `dump` call of `h` with the
request as received, and the unlock; that `dump` call is the only handler call. -/
theorem sock_diag_cmd_dump_verbatim (K : Consts) (E : Env) (nlh : nlmsghdr) (s : State)
    (h : Nat) (hlen : K.sizeof_sock_diag_req ≤ nlh.payload_len)
    (hf : nlh.sdiag_family < K.AF_MAX)
    (htype : nlh.nlmsg_type = K.SOCK_DIAG_BY_FAMILY)
    (hslot : slot (resolved K E nlh.sdiag_family s.reg).sock_diag_handlers nlh.sdiag_family
      = some h) :
    (__sock_diag_cmd K E nlh s).1 = (E.handler h).dump nlh ∧
    (__sock_diag_cmd K E nlh s).2.trace =
      s.trace ++ (lock_handler_events K nlh.sdiag_family s.reg ++
        [Event.dump h nlh, Event.mutex_unlock .sock_diag_table_mutex]) ∧
    (lock_handler_events K nlh.sdiag_family s.reg ++
        [Event.dump h nlh, Event.mutex_unlock .sock_diag_table_mutex]).filter
      Event.isHandlerCall = [Event.dump h nlh] := by
  have h1 : ¬ nlh.payload_len < K.sizeof_sock_diag_req := by omega
  have h2 : ¬ nlh.sdiag_family ≥ K.AF_MAX := by omega
  rw [sock_diag_cmd_eq K E nlh s h1 h2, hslot]
  refine ⟨by simp [cmd_result, htype], by simp [cmd_call_events, htype], ?_⟩
  unfold lock_handler_events
  by_cases hs : slot s.reg.sock_diag_handlers nlh.sdiag_family = none <;>
  simp [hs, List.filter_cons, Event.isHandlerCall]

/-- C17, evaluated: handler 4 of family 2 answers a dump request with the payload
length, here 6, and the dispatcher returns 6. -/
theorem sock_diag_cmd_dump_verbatim_witness :
    (__sock_diag_cmd linux34 demoEnv ⟨20, 6, 2⟩
      (sock_diag_register linux34 demoEnv 4 emptyState).2).1 = 6 :=
  (sock_diag_cmd_dump_verbatim linux34 demoEnv ⟨20, 6, 2⟩
    (sock_diag_register linux34 demoEnv 4 emptyState).2 4
    (by decide) (by decide) (by decide) (by decide)).1

/-- C18: for a message of one of the two legacy types, whatever its payload length
and family: `sock_diag_rcv_msg` returns the result of the function found in the compat
slot under the lock, or `-EOPNOTSUPP` if the slot is then empty; none of the events it
appends indexes the handler table; and its `request_module` calls are: one, for
`AF_INET`, if the compat slot was empty on entry, none otherwise. -/
theorem sock_diag_rcv_msg_legacy_compat (K : Consts) (E : Env) (nlh : nlmsghdr) (s : State)
    (hl : nlh.nlmsg_type = K.TCPDIAG_GETSOCK ∨ nlh.nlmsg_type = K.DCCPDIAG_GETSOCK) :
    (∀ fn, (resolved_compat K E s.reg).inet_rcv_compat = some fn →
      (sock_diag_rcv_msg K E nlh s).1 = E.compat fn nlh) ∧
    ((resolved_compat K E s.reg).inet_rcv_compat = none →
      (sock_diag_rcv_msg K E nlh s).1 = -K.EOPNOTSUPP) ∧
    ∃ evs, (sock_diag_rcv_msg K E nlh s).2.trace = s.trace ++ evs ∧
      (∀ e ∈ evs, e.tableIndex = none) ∧
      evs.filter Event.isRequestModule =
        (if s.reg.inet_rcv_compat = none then
          [Event.request_module K.PF_NETLINK K.NETLINK_SOCK_DIAG K.AF_INET]
        else []) := by
  rw [sock_diag_rcv_msg_legacy K E nlh s hl]
  refine ⟨?_, ?_, compat_events K E nlh s.reg, rfl, ?_, ?_⟩
  · intro fn hfn
    simp [hfn]
  · intro hnone
    simp [hnone]
  · intro e he
    unfold compat_events at he
    cases hcmp : (resolved_compat K E s.reg).inet_rcv_compat <;>
    by_cases hs : s.reg.inet_rcv_compat = none <;>
    simp [hs, hcmp] at he <;>
    rcases he with rfl | rfl | rfl | rfl | rfl | rfl <;> rfl
  · unfold compat_events
    cases hcmp : (resolved_compat K E s.reg).inet_rcv_compat <;>
    by_cases hs : s.reg.inet_rcv_compat = none <;>
    simp [hs, List.filter_cons, Event.isRequestModule]

/-- C18, evaluated: with compat function 9 installed a legacy message gets its result
0; with an empty compat slot it gets `-EOPNOTSUPP`. -/
theorem sock_diag_rcv_msg_legacy_compat_witness :
    (sock_diag_rcv_msg linux34 demoEnv ⟨18, 0, 99⟩
      (sock_diag_register_inet_compat 9 emptyState)).1 = 0 ∧
    (sock_diag_rcv_msg linux34 demoEnv ⟨19, 0, 99⟩ emptyState).1 = -95 :=
  ⟨(sock_diag_rcv_msg_legacy_compat linux34 demoEnv ⟨18, 0, 99⟩
      (sock_diag_register_inet_compat 9 emptyState) (Or.inl rfl)).1 9 rfl,
   (sock_diag_rcv_msg_legacy_compat linux34 demoEnv ⟨19, 0, 99⟩ emptyState
      (Or.inr rfl)).2.1 rfl⟩

/-! ## Destroy gate and memory-accounting attribute: theorems -/

/-- C14: `sock_diag_destroy` first asks `capable(CAP_NET_ADMIN)`. Without the
capability it returns `-EPERM`, whether or not the protocol has `diag_destroy`; with it
and no `diag_destroy` it returns `-EOPNOTSUPP`; otherwise it returns what `diag_destroy`
returns for the same socket and error code. `diag_destroy` is called in that last case
only, once, with those arguments. -/
theorem sock_diag_destroy_gate (K : Consts) (E : Env) (sk : Nat) (err : Int) (s : State) :
    (E.capable K.CAP_NET_ADMIN = false →
      sock_diag_destroy K E sk err s = (-K.EPERM, s.emit (.capable K.CAP_NET_ADMIN))) ∧
    (E.capable K.CAP_NET_ADMIN = true → E.diag_destroy sk = none →
      sock_diag_destroy K E sk err s =
        (-K.EOPNOTSUPP, s.emit (.capable K.CAP_NET_ADMIN))) ∧
    (E.capable K.CAP_NET_ADMIN = true → ∀ f, E.diag_destroy sk = some f →
      sock_diag_destroy K E sk err s =
        (f sk err, (s.emit (.capable K.CAP_NET_ADMIN)).emit (.diag_destroy sk err))) ∧
    (∀ sk2 err2, Event.diag_destroy sk2 err2 ∈
        (sock_diag_destroy K E sk err s).2.trace.drop s.trace.length →
      E.capable K.CAP_NET_ADMIN = true ∧ (E.diag_destroy sk).isSome = true ∧
        sk2 = sk ∧ err2 = err) := by
  refine ⟨?_, ?_, ?_, ?_⟩
  · intro hc
    simp [sock_diag_destroy, hc]
  · intro hc hd
    simp [sock_diag_destroy, hc, hd]
  · intro hc f hd
    simp [sock_diag_destroy, hc, hd]
  · intro sk2 err2 hmem
    cases hc : E.capable K.CAP_NET_ADMIN with
    | false => simp [sock_diag_destroy, hc, State.emit] at hmem
    | true =>
      cases hd : E.diag_destroy sk with
      | none => simp [sock_diag_destroy, hc, hd, State.emit] at hmem
      | some f =>
        simp [sock_diag_destroy, hc, hd, State.emit] at hmem
        exact ⟨rfl, rfl, hmem.1, hmem.2⟩

/-- C14, evaluated: an unprivileged caller gets `-EPERM` on socket 2, whose protocol has
no `diag_destroy`, and on socket 3, whose protocol has one; a privileged caller gets
`-EOPNOTSUPP` on socket 2 and the protocol's answer, here `-104`, on socket 3. -/
theorem sock_diag_destroy_gate_witness :
    sock_diag_destroy linux34 unprivEnv 2 104 emptyState
      = (-1, emptyState.emit (.capable 12)) ∧
    sock_diag_destroy linux34 unprivEnv 3 104 emptyState
      = (-1, emptyState.emit (.capable 12)) ∧
    sock_diag_destroy linux34 demoEnv 2 104 emptyState
      = (-95, emptyState.emit (.capable 12)) ∧
    sock_diag_destroy linux34 demoEnv 3 104 emptyState
      = (-104, (emptyState.emit (.capable 12)).emit (.diag_destroy 3 104)) :=
  ⟨(sock_diag_destroy_gate linux34 unprivEnv 2 104 emptyState).1 rfl,
   (sock_diag_destroy_gate linux34 unprivEnv 3 104 emptyState).1 rfl,
   (sock_diag_destroy_gate linux34 demoEnv 2 104 emptyState).2.1 rfl rfl,
   (sock_diag_destroy_gate linux34 demoEnv 3 104 emptyState).2.2.1 rfl _ rfl⟩

theorem to_u32_lt (x : Int) : to_u32 x < 2 ^ 32 := by
  unfold to_u32
  omega

/-- C15: with the seven field indices `SK_MEMINFO_*` being 0 to 6 in the order of the
header and `SK_MEMINFO_VARS = 7`: if the tailroom of the buffer is below the room an
attribute with a 28-byte payload takes, `sock_diag_put_meminfo` returns `-EMSGSIZE` and
the buffer is as before; otherwise it returns 0 and the buffer holds one more attribute,
of the given type, whose payload is the seven values read from the socket, in the order
rmem_alloc, rcvbuf, wmem_alloc, sndbuf, forward_alloc, wmem_queued, omem_alloc, each
converted to 32 bits. `-EMSGSIZE` is returned in the first case only. -/
theorem sock_diag_put_meminfo_encodes (K : Consts)
    (hlay : K.SK_MEMINFO_RMEM_ALLOC = 0 ∧ K.SK_MEMINFO_RCVBUF = 1 ∧
      K.SK_MEMINFO_WMEM_ALLOC = 2 ∧ K.SK_MEMINFO_SNDBUF = 3 ∧ K.SK_MEMINFO_FWD_ALLOC = 4 ∧
      K.SK_MEMINFO_WMEM_QUEUED = 5 ∧ K.SK_MEMINFO_OPTMEM = 6 ∧ K.SK_MEMINFO_VARS = 7)
    (hE : K.EMSGSIZE ≠ 0) (sk : sock_mem) (skb : sk_buff) (attrtype : Nat) :
    (skb.tailroom < K.RTA_SPACE 28 →
      sock_diag_put_meminfo K sk skb attrtype = (-K.EMSGSIZE, skb)) ∧
    (¬ skb.tailroom < K.RTA_SPACE 28 →
      (sock_diag_put_meminfo K sk skb attrtype).1 = 0 ∧
      (sock_diag_put_meminfo K sk skb attrtype).2.attrs =
        skb.attrs ++
          [{ rta_type := attrtype
             rta_len := K.RTA_LENGTH 28
             data := [to_u32 sk.sk_rmem_alloc_get, to_u32 sk.sk_rcvbuf,
                      to_u32 sk.sk_wmem_alloc_get, to_u32 sk.sk_sndbuf,
                      to_u32 sk.sk_forward_alloc, to_u32 sk.sk_wmem_queued,
                      to_u32 sk.sk_omem_alloc] }] ∧
      (sock_diag_put_meminfo K sk skb attrtype).2.tailroom
        = skb.tailroom - K.RTA_SPACE 28) ∧
    ((sock_diag_put_meminfo K sk skb attrtype).1 = -K.EMSGSIZE ↔
      skb.tailroom < K.RTA_SPACE 28) := by
  obtain ⟨h0, h1, h2, h3, h4, h5, h6, h7⟩ := hlay
  have hfail : skb.tailroom < K.RTA_SPACE 28 →
      sock_diag_put_meminfo K sk skb attrtype = (-K.EMSGSIZE, skb) := by
    intro hlt
    simp [sock_diag_put_meminfo, __RTA_PUT, h7, hlt]
  have hok : ¬ skb.tailroom < K.RTA_SPACE 28 →
      sock_diag_put_meminfo K sk skb attrtype =
        (0, { skb with
              tailroom := skb.tailroom - K.RTA_SPACE 28
              attrs := skb.attrs ++
                [{ rta_type := attrtype
                   rta_len := K.RTA_LENGTH 28
                   data := [to_u32 sk.sk_rmem_alloc_get, to_u32 sk.sk_rcvbuf,
                            to_u32 sk.sk_wmem_alloc_get, to_u32 sk.sk_sndbuf,
                            to_u32 sk.sk_forward_alloc, to_u32 sk.sk_wmem_queued,
                            to_u32 sk.sk_omem_alloc] }] }) := by
    intro hge
    simp [sock_diag_put_meminfo, __RTA_PUT, h0, h1, h2, h3, h4, h5, h6, h7, hge,
      List.range_succ]
  refine ⟨hfail, ?_, ?_⟩
  · intro hge
    rw [hok hge]
    exact ⟨rfl, rfl, rfl⟩
  · constructor
    · intro hret
      by_contra hge
      rw [hok hge] at hret
      exact hE (by simpa using hret.symm)
    · intro hlt
      rw [hfail hlt]

/-- C15, evaluated: with 31 bytes of tailroom nothing is written and `-EMSGSIZE`
comes back; with 32 bytes the attribute `[1, 2, 3, 4, 2 ^ 32 - 1, 6, 7]` is appended. -/
theorem sock_diag_put_meminfo_encodes_witness :
    sock_diag_put_meminfo linux34 demoMem (demoSkb 31) 7 = (-90, demoSkb 31) ∧
    (sock_diag_put_meminfo linux34 demoMem (demoSkb 32) 7).1 = 0 ∧
    (sock_diag_put_meminfo linux34 demoMem (demoSkb 32) 7).2.attrs =
      [{ rta_type := 7, rta_len := 32, data := [1, 2, 3, 4, 4294967295, 6, 7] }] :=
  ⟨(sock_diag_put_meminfo_encodes linux34 (by decide) (by decide) demoMem (demoSkb 31)
      7).1 (by decide),
   ((sock_diag_put_meminfo_encodes linux34 (by decide) (by decide) demoMem (demoSkb 32)
      7).2.1 (by decide)).1,
   ((sock_diag_put_meminfo_encodes linux34 (by decide) (by decide) demoMem (demoSkb 32)
      7).2.1 (by decide)).2.1⟩

/-! ## Destroy requests in the dispatcher -/

/-- The claim C13 fails on the code. Handler 5 (family 2) has a `destroy` operation and
the caller has no capability; `__sock_diag_cmd` on a destroy request still calls that
operation and returns its result `-104`, not `-EPERM`, and it makes no `capable` call. -/
theorem sock_diag_cmd_destroy_unprivileged :
    unprivEnv.capable linux34.CAP_NET_ADMIN = false ∧
    ((unprivEnv.handler 5).destroy).isSome = true ∧
    (__sock_diag_cmd linux34 unprivEnv ⟨21, 2, 2⟩
      (sock_diag_register linux34 unprivEnv 5 emptyState).2).1 = -104 ∧
    (__sock_diag_cmd linux34 unprivEnv ⟨21, 2, 2⟩
      (sock_diag_register linux34 unprivEnv 5 emptyState).2).1 ≠ -linux34.EPERM ∧
    Event.destroy 5 ⟨21, 2, 2⟩ ∈
      (__sock_diag_cmd linux34 unprivEnv ⟨21, 2, 2⟩
        (sock_diag_register linux34 unprivEnv 5 emptyState).2).2.trace ∧
    Event.capable linux34.CAP_NET_ADMIN ∉
      (__sock_diag_cmd linux34 unprivEnv ⟨21, 2, 2⟩
        (sock_diag_register linux34 unprivEnv 5 emptyState).2).2.trace := by
  refine ⟨rfl, rfl, by decide, by decide, by decide, by decide⟩

/-- C13, amended: for a destroy request that is long enough and whose family `f` is in
range, with a handler `h` that has a `destroy` operation in slot `f` when the slot is
read under the lock, `__sock_diag_cmd` calls that operation once, with the request as
received, between taking and releasing the table mutex, and returns its result. This is
so whatever `capable` answers for the caller, and none of the events appended is a
`capable` call. -/
theorem sock_diag_cmd_destroy_direct (K : Consts) (E : Env) (nlh : nlmsghdr) (s : State)
    (h : Nat) (d : nlmsghdr → Int)
    (hlen : K.sizeof_sock_diag_req ≤ nlh.payload_len)
    (hf : nlh.sdiag_family < K.AF_MAX)
    (htype : nlh.nlmsg_type = K.SOCK_DESTROY_BACKPORT)
    (hne : K.SOCK_DESTROY_BACKPORT ≠ K.SOCK_DIAG_BY_FAMILY)
    (hslot : slot (resolved K E nlh.sdiag_family s.reg).sock_diag_handlers nlh.sdiag_family
      = some h)
    (hd : (E.handler h).destroy = some d) (c : Nat → Bool) :
    (__sock_diag_cmd K { E with capable := c } nlh s).1 = d nlh ∧
    (__sock_diag_cmd K { E with capable := c } nlh s).2.trace =
      s.trace ++ (lock_handler_events K nlh.sdiag_family s.reg ++
        [Event.destroy h nlh, Event.mutex_unlock .sock_diag_table_mutex]) ∧
    (lock_handler_events K nlh.sdiag_family s.reg ++
        [Event.destroy h nlh, Event.mutex_unlock .sock_diag_table_mutex]).filter
      Event.isHandlerCall = [Event.destroy h nlh] ∧
    ∀ e ∈ lock_handler_events K nlh.sdiag_family s.reg ++
        [Event.destroy h nlh, Event.mutex_unlock .sock_diag_table_mutex],
      ∀ cap, e ≠ Event.capable cap := by
  have h1 : ¬ nlh.payload_len < K.sizeof_sock_diag_req := by omega
  have h2 : ¬ nlh.sdiag_family ≥ K.AF_MAX := by omega
  have hslot2 : slot (resolved K { E with capable := c } nlh.sdiag_family
      s.reg).sock_diag_handlers nlh.sdiag_family = some h := hslot
  have hty : ¬ nlh.nlmsg_type = K.SOCK_DIAG_BY_FAMILY := by
    rw [htype]; exact hne
  rw [sock_diag_cmd_eq K _ nlh s h1 h2, hslot2]
  refine ⟨?_, ?_, ?_, ?_⟩
  · simp only [cmd_result, if_neg hty, if_pos htype]
    rw [hd]
  · simp only [cmd_call_events, if_neg hty, if_pos htype]
    rw [hd]
    simp
  · unfold lock_handler_events
    by_cases hs : slot s.reg.sock_diag_handlers nlh.sdiag_family = none <;>
    simp [hs, List.filter_cons, Event.isHandlerCall]
  · intro e he cap
    unfold lock_handler_events at he
    by_cases hs : slot s.reg.sock_diag_handlers nlh.sdiag_family = none <;>
    simp [hs] at he <;>
    rcases he with rfl | rfl | rfl | rfl | rfl | rfl <;>
    simp

/-- C13 amended, evaluated: the destroy request of an unprivileged caller reaches the
`destroy` operation of handler 5 and its result `-104` is returned. -/
theorem sock_diag_cmd_destroy_direct_witness :
    (__sock_diag_cmd linux34 { demoEnv with capable := fun _ => false } ⟨21, 2, 2⟩
      (sock_diag_register linux34 demoEnv 5 emptyState).2).1 = -104 :=
  (sock_diag_cmd_destroy_direct linux34 demoEnv ⟨21, 2, 2⟩
    (sock_diag_register linux34 demoEnv 5 emptyState).2 5 (fun _ => -104)
    (by decide) (by decide) (by decide) (by decide) (by decide) rfl (fun _ => false)).1

/-! ## Locks along the receive pipeline -/

theorem netlink_rcv_skb_state (K : Consts) (E : Env) (skb : List nlmsghdr) :
    ∀ s : State, (netlink_rcv_skb (sock_diag_rcv_msg K E) skb s).2 =
      { reg := rcv_skb_reg K E skb s.reg,
        trace := s.trace ++ rcv_skb_events K E skb s.reg } := by
  induction skb with
  | nil => intro s; simp [netlink_rcv_skb, rcv_skb_reg, rcv_skb_events]
  | cons nlh rest ih =>
    intro s
    simp only [netlink_rcv_skb, rcv_skb_reg, rcv_skb_events]
    rw [ih, sock_diag_rcv_msg_state]
    simp

theorem rcv_skb_events_scan (K : Consts) (E : Env) (skb : List nlmsghdr) :
    ∀ r : Registry,
      lockedAt .sock_diag_table_mutex Event.isRequestModule false false
          (rcv_skb_events K E skb r) = true ∧
      heldFrom .sock_diag_table_mutex false (rcv_skb_events K E skb r) = false ∧
      lockedAt .sock_diag_mutex Event.isRequestModule true true
          (rcv_skb_events K E skb r) = true ∧
      heldFrom .sock_diag_mutex true (rcv_skb_events K E skb r) = true := by
  induction skb with
  | nil => intro r; simp [rcv_skb_events, lockedAt, heldFrom]
  | cons nlh rest ih =>
    intro r
    obtain ⟨a1, _, a3, a4, a5, _⟩ := rcv_msg_events_scan K E nlh r
    obtain ⟨b1, b2, b3, b4⟩ := ih (rcv_msg_reg K E nlh r)
    simp only [rcv_skb_events, lockedAt_append, heldFrom_append, a1, a3, a4, a5, b1, b2,
      b3, b4, Bool.and_self]
    simp

theorem sock_diag_rcv_trace (K : Consts) (E : Env) (skb : List nlmsghdr) (s : State) :
    (sock_diag_rcv K E skb s).2.trace =
      s.trace ++ (Event.mutex_lock .sock_diag_mutex ::
        (rcv_skb_events K E skb s.reg ++ [Event.mutex_unlock .sock_diag_mutex])) := by
  simp [sock_diag_rcv, netlink_rcv_skb_state, mutex_lock, mutex_unlock, State.emit]

/-- The claim C19 fails on the code. A dump request for family 2 arrives while the
handler table is empty: the trace of `sock_diag_rcv` shows `request_module` issued
after `mutex_lock(&sock_diag_mutex)` and before the matching unlock, so the pipeline
mutex is held at that point (the table mutex is not). -/
theorem request_module_under_sock_diag_mutex :
    (sock_diag_rcv linux34 demoEnv [⟨20, 2, 2⟩] emptyState).2.trace =
      [Event.mutex_lock .sock_diag_mutex, Event.load_handler 2] ++
        Event.request_module 16 4 2 ::
          [Event.mutex_lock .sock_diag_table_mutex, Event.load_handler 2,
           Event.mutex_unlock .sock_diag_table_mutex,
           Event.mutex_unlock .sock_diag_mutex] ∧
    held .sock_diag_mutex [Event.mutex_lock .sock_diag_mutex, Event.load_handler 2]
      = true ∧
    held .sock_diag_table_mutex [Event.mutex_lock .sock_diag_mutex, Event.load_handler 2]
      = false := by
  refine ⟨by decide, by decide, by decide⟩

/-- C19, amended: in every run of `sock_diag_rcv`, on any buffer of messages, started
with the table mutex free, at each `request_module` call the caller does not hold
`sock_diag_table_mutex`, and it does hold `sock_diag_mutex`, which `sock_diag_rcv`
takes before and releases after the whole of `netlink_rcv_skb`. -/
theorem request_module_outside_table_mutex (K : Consts) (E : Env) (skb : List nlmsghdr)
    (s : State) (hfree : held .sock_diag_table_mutex s.trace = false) :
    ∃ evs, (sock_diag_rcv K E skb s).2.trace = s.trace ++ evs ∧
      ∀ pre e post, evs = pre ++ e :: post → e.isRequestModule = true →
        held .sock_diag_table_mutex (s.trace ++ pre) = false ∧
        held .sock_diag_mutex (s.trace ++ pre) = true := by
  refine ⟨_, sock_diag_rcv_trace K E skb s, ?_⟩
  obtain ⟨b1, b2, b3, b4⟩ := rcv_skb_events_scan K E skb s.reg
  intro pre e post heq hp
  constructor
  · rw [held_append, hfree]
    refine lockedAt_spec .sock_diag_table_mutex Event.isRequestModule false _ false ?_
      pre e post heq hp
    rw [show (Event.mutex_lock Mutex.sock_diag_mutex ::
        (rcv_skb_events K E skb s.reg ++ [Event.mutex_unlock Mutex.sock_diag_mutex])) =
      [Event.mutex_lock Mutex.sock_diag_mutex] ++
        (rcv_skb_events K E skb s.reg ++ [Event.mutex_unlock Mutex.sock_diag_mutex])
      from rfl]
    have hl0 : heldFrom .sock_diag_table_mutex false
        [Event.mutex_lock Mutex.sock_diag_mutex] = false := by
      simp [heldFrom, lockStep]
    simp only [lockedAt_append, heldFrom_append, hl0, b1, b2]
    simp [lockedAt, heldFrom, lockStep, Event.isRequestModule]
  · rw [held_append]
    refine lockedAt_spec .sock_diag_mutex Event.isRequestModule true _ _ ?_
      pre e post heq hp
    rw [show (Event.mutex_lock Mutex.sock_diag_mutex ::
        (rcv_skb_events K E skb s.reg ++ [Event.mutex_unlock Mutex.sock_diag_mutex])) =
      [Event.mutex_lock Mutex.sock_diag_mutex] ++
        (rcv_skb_events K E skb s.reg ++ [Event.mutex_unlock Mutex.sock_diag_mutex])
      from rfl]
    have hl : heldFrom .sock_diag_mutex (held .sock_diag_mutex s.trace)
        [Event.mutex_lock Mutex.sock_diag_mutex] = true := by
      simp [heldFrom, lockStep]
    simp only [lockedAt_append, heldFrom_append, hl, b3, b4]
    simp [lockedAt, heldFrom, lockStep, Event.isRequestModule]

/-- C19 amended, evaluated on a buffer with a dump request and a legacy request,
against an empty registry: both `request_module` calls happen with the table mutex free
and the pipeline mutex held. -/
theorem request_module_outside_table_mutex_witness :
    ∃ evs, (sock_diag_rcv linux34 demoEnv [⟨20, 2, 2⟩, ⟨18, 0, 0⟩] emptyState).2.trace
        = emptyState.trace ++ evs ∧
      ∀ pre e post, evs = pre ++ e :: post → e.isRequestModule = true →
        held .sock_diag_table_mutex (emptyState.trace ++ pre) = false ∧
        held .sock_diag_mutex (emptyState.trace ++ pre) = true :=
  request_module_outside_table_mutex linux34 demoEnv [⟨20, 2, 2⟩, ⟨18, 0, 0⟩] emptyState
    (by decide)

theorem rcv_msg_reg_cases (K : Consts) (E : Env) (nlh : nlmsghdr) (r : Registry) :
    rcv_msg_reg K E nlh r = r ∨
    ∃ ty, Event.request_module K.PF_NETLINK K.NETLINK_SOCK_DIAG ty ∈
        rcv_msg_events K E nlh r ∧
      rcv_msg_reg K E nlh r = E.request_module K.PF_NETLINK K.NETLINK_SOCK_DIAG ty r := by
  unfold rcv_msg_reg rcv_msg_events
  by_cases hl : is_legacy K nlh
  · rw [if_pos hl, if_pos hl]
    by_cases hs : r.inet_rcv_compat = none
    · right
      refine ⟨K.AF_INET, ?_, by simp [resolved_compat, hs]⟩
      simp [compat_events, hs]
    · left
      simp [resolved_compat, hs]
  · rw [if_neg hl, if_neg hl]
    by_cases hc : is_cmd K nlh
    · rw [if_pos hc, if_pos hc]
      by_cases hearly : nlh.payload_len < K.sizeof_sock_diag_req ∨
          nlh.sdiag_family ≥ K.AF_MAX
      · left
        simp [cmd_reg, hearly]
      · by_cases hs : slot r.sock_diag_handlers nlh.sdiag_family = none
        · right
          refine ⟨nlh.sdiag_family, ?_, by simp [cmd_reg, hearly, resolved, hs]⟩
          simp [cmd_events, hearly, lock_handler_events, hs]
        · left
          simp [cmd_reg, hearly, resolved, hs]
    · left
      rw [if_neg hc]

/-- C20: for every request and registry, with the table mutex free on entry: the table
mutex is free when `sock_diag_rcv_msg` returns; among the events the call appends there
is at most one `mutex_lock` of the table mutex; the table mutex is held at every call of
a handler operation or of the compat function; no event is a write to the handler table
or to the compat slot; and the registry on return is the one on entry, or the one a
`request_module` call made during the request turned it into. -/
theorem sock_diag_rcv_msg_lock_discipline (K : Consts) (E : Env) (nlh : nlmsghdr)
    (s : State) (hfree : held .sock_diag_table_mutex s.trace = false) :
    held .sock_diag_table_mutex (sock_diag_rcv_msg K E nlh s).2.trace = false ∧
    ∃ evs, (sock_diag_rcv_msg K E nlh s).2.trace = s.trace ++ evs ∧
      evs.count (Event.mutex_lock .sock_diag_table_mutex) ≤ 1 ∧
      (∀ pre e post, evs = pre ++ e :: post → e.isHandlerCall = true →
        held .sock_diag_table_mutex (s.trace ++ pre) = true) ∧
      (∀ e ∈ evs, e.isStore = false) ∧
      ((∀ e ∈ evs, e.isRequestModule = false) → (sock_diag_rcv_msg K E nlh s).2.reg = s.reg) ∧
      ((sock_diag_rcv_msg K E nlh s).2.reg = s.reg ∨
        ∃ ty, Event.request_module K.PF_NETLINK K.NETLINK_SOCK_DIAG ty ∈ evs ∧
          (sock_diag_rcv_msg K E nlh s).2.reg =
            E.request_module K.PF_NETLINK K.NETLINK_SOCK_DIAG ty s.reg) := by
  obtain ⟨_, a2, a3, _, _, a6⟩ := rcv_msg_events_scan K E nlh s.reg
  rw [sock_diag_rcv_msg_state]
  refine ⟨?_, rcv_msg_events K E nlh s.reg, rfl, a6, ?_,
    rcv_msg_events_no_store K E nlh s.reg, ?_, rcv_msg_reg_cases K E nlh s.reg⟩
  · show held .sock_diag_table_mutex (s.trace ++ rcv_msg_events K E nlh s.reg) = false
    rw [held_append, hfree, a3]
  · intro pre e post heq hp
    rw [held_append, hfree]
    exact lockedAt_spec .sock_diag_table_mutex Event.isHandlerCall true _ false a2
      pre e post heq hp
  · intro hno
    rcases rcv_msg_reg_cases K E nlh s.reg with h | ⟨ty, hmem, _⟩
    · exact h
    · have := hno _ hmem
      simp [Event.isRequestModule] at this

/-- C20, evaluated on a destroy request served by handler 5: the table mutex is free
on return. -/
theorem sock_diag_rcv_msg_lock_discipline_witness :
    held .sock_diag_table_mutex
      (sock_diag_rcv_msg linux34 demoEnv ⟨21, 2, 2⟩
        (sock_diag_register linux34 demoEnv 5 emptyState).2).2.trace = false :=
  (sock_diag_rcv_msg_lock_discipline linux34 demoEnv ⟨21, 2, 2⟩
    (sock_diag_register linux34 demoEnv 5 emptyState).2 (by decide)).1

end SockDiag
